import Mathlib

/-!
Verification of the CRM template-agent pipeline.

This file gives a shallow embedding of the core modules of the repository
(`crm_agent.agents.compilance`, `crm_agent.agents.template_agent`,
`crm_agent.agents.execution_agent`, `crm_agent.flow.workflow`,
`crm_agent.services.targeting`, `crm_agent.db.repo`) and proves or refutes
the frozen claims about them.

Text is modelled as Lean `String`; character-level scanning (the Python
regex `\x7b([a-zA-Z0-9_]+)\x7d` used with `findall` and `sub`) is modelled by
an explicit left-to-right scanner over `List Char` with the same
leftmost, non-overlapping, greedy semantics.  The scanners are written with
a fuel argument (fuel = length of the list) so that they are structurally
recursive and evaluate inside the kernel.
-/

deriving instance DecidableEq for Except

/-- The regex character class `[a-zA-Z0-9_]`. -/
def isWordChar (c : Char) : Bool := c.isAlphanum || c == '_'

/-- Greedy run of word characters at the head of a list: returns the run and
the rest, mirroring the greedy `+` of the slot regex. -/
def takeWord : List Char → List Char × List Char
  | [] => ([], [])
  | c :: cs =>
    if isWordChar c then
      let p := takeWord cs
      (c :: p.1, p.2)
    else ([], c :: cs)

/-- A slot match succeeds at a position whose character is `c` and whose
remaining input is `cs`: the regex requires an opening brace, a nonempty
word run, and a closing brace. -/
def slotHit (c : Char) (cs : List Char) : Prop :=
  c = '{' ∧ (takeWord cs).1 ≠ [] ∧ (takeWord cs).2.headD 'x' = '}'

instance (c : Char) (cs : List Char) : Decidable (slotHit c cs) := by
  unfold slotHit; infer_instance

/-- Fuel-driven slot scanner; `fuel` bounds the length of the input. -/
def scanAux : Nat → List Char → List (List Char)
  | 0, _ => []
  | _ + 1, [] => []
  | fuel + 1, c :: cs =>
    if slotHit c cs then (takeWord cs).1 :: scanAux fuel (takeWord cs).2.tail
    else scanAux fuel cs

/-- All leftmost, non-overlapping slot matches in a character list: the
embedding of `re.findall(r"\x7b([a-zA-Z0-9_]+)\x7d", text)`. On a failed
match the scanner advances one character, as the regex engine does. -/
def scanSlots (l : List Char) : List (List Char) := scanAux l.length l

/-! ### Python string helpers -/

/-- `str.strip()` on a character list: remove whitespace from both ends. -/
def pyStripChars (l : List Char) : List Char :=
  ((l.dropWhile Char.isWhitespace).reverse.dropWhile Char.isWhitespace).reverse

/-- `str.strip()`. -/
def pyStrip (s : String) : String := String.mk (pyStripChars s.data)

/-- `str.lower()` (ASCII case folding suffices for the identifiers used). -/
def pyLower (s : String) : String := String.mk (s.data.map Char.toLower)

/-- `s[:n]` for nonnegative `n`. -/
def pyTake (n : Nat) (s : String) : String := String.mk (s.data.take n)

/-- Does `pat` occur at the head of `l`? -/
def startsList : List Char → List Char → Bool
  | [], _ => true
  | _ :: _, [] => false
  | p :: ps, c :: cs => p == c && startsList ps cs

/-- Python `pat in text` (substring containment). -/
def hasSub (pat : List Char) : List Char → Bool
  | [] => startsList pat []
  | c :: cs => startsList pat (c :: cs) || hasSub pat cs

/-- Python `pat in s` on strings. -/
def pyContains (pat s : String) : Bool := hasSub pat.data s.data

/-- `"\n".join(...)` on character lists. -/
def joinNLChars : List (List Char) → List Char
  | [] => []
  | [s] => s
  | s :: rest => s ++ '\n' :: joinNLChars rest

/-- The text `"{" + m + "}"` of a placeholder. -/
def phChars (m : List Char) : List Char := '{' :: (m ++ ['}'])

/-! ### `re.sub`-style substitution (crm_agent.agents.execution_agent._render) -/

/-- Value of the replacement for a matched slot name: the string form of the
mapped value, or the placeholder itself (braces included) when the name has
no entry — `str(slot_values.get(k, "\x7b" + k + "\x7d"))`. -/
def replValue (vals : List (String × String)) (w : List Char) : List Char :=
  match vals.lookup (String.mk w) with
  | some v => v.data
  | none => phChars w

/-- Fuel-driven substitution scanner mirroring `SLOT_PATTERN.sub(repl, text)`:
a replacement is emitted verbatim and never rescanned. -/
def renderAux (vals : List (String × String)) : Nat → List Char → List Char
  | 0, l => l
  | _ + 1, [] => []
  | fuel + 1, c :: cs =>
    if slotHit c cs then
      replValue vals (takeWord cs).1 ++ renderAux vals fuel (takeWord cs).2.tail
    else c :: renderAux vals fuel cs

def renderChars (vals : List (String × String)) (l : List Char) : List Char :=
  renderAux vals l.length l

/-- A parse of the text into literal characters and placeholder names, with
the same scanning discipline as the substitution. -/
inductive Seg where
  | lit : Char → Seg
  | slot : List Char → Seg
deriving DecidableEq, Repr

def segText : Seg → List Char
  | .lit c => [c]
  | .slot w => phChars w

def renderSeg (vals : List (String × String)) : Seg → List Char
  | .lit c => [c]
  | .slot w => replValue vals w

def parseAux : Nat → List Char → List Seg
  | 0, l => l.map .lit
  | _ + 1, [] => []
  | fuel + 1, c :: cs =>
    if slotHit c cs then .slot (takeWord cs).1 :: parseAux fuel (takeWord cs).2.tail
    else .lit c :: parseAux fuel cs

def parseSegs (l : List Char) : List Seg := parseAux l.length l

/-- Lexicographic comparison on character lists (by code point), as Python
compares strings. -/
def charListLt : List Char → List Char → Bool
  | [], [] => false
  | [], _ :: _ => true
  | _ :: _, [] => false
  | a :: as, b :: bs =>
    if a.val < b.val then true
    else if b.val < a.val then false
    else charListLt as bs

/-- Insert into a sorted list, skipping duplicates. -/
def insertSorted (s : String) : List String → List String
  | [] => [s]
  | t :: ts =>
    if charListLt s.data t.data then s :: t :: ts
    else if s = t then t :: ts
    else t :: insertSorted s ts

/-- `sorted(set(xs))` for strings. -/
def sortDedup (l : List String) : List String := l.foldr insertSorted []

/-- `str.upper()` (ASCII). -/
def pyUpper (s : String) : String := String.mk (s.data.map Char.toUpper)

/-- `sep.join(xs)` on strings. -/
def joinSep (sep : String) : List String → String
  | [] => ""
  | [s] => s
  | s :: rest => s ++ sep ++ joinSep sep rest

/-- A single-quote character, used by Python `repr` of strings. -/
def pyQuote : String := String.singleton (Char.ofNat 39)

/-- Python `repr` of a list of strings, as interpolated by an f-string. -/
def pyReprList (xs : List String) : String :=
  "[" ++ joinSep ", " (xs.map (fun s => pyQuote ++ s ++ pyQuote)) ++ "]"

/-- Fuel-driven `str.replace` (all occurrences, for a nonempty pattern). -/
def replaceAux (pat rep : List Char) : Nat → List Char → List Char
  | 0, l => l
  | _ + 1, [] => []
  | fuel + 1, c :: cs =>
    if pat ≠ [] ∧ startsList pat (c :: cs) = true then
      rep ++ replaceAux pat rep fuel (List.drop pat.length (c :: cs))
    else c :: replaceAux pat rep fuel cs

/-- `s.replace(pat, rep)` for a nonempty pattern (the repository only
replaces the nonempty literals `"대"` and `"대+"`). -/
def pyReplace (s pat rep : String) : String :=
  String.mk (replaceAux pat.data rep.data s.data.length s.data)

/-- `s.endswith(suffix)`. -/
def pyEndsWith (s suffix : String) : Bool :=
  startsList suffix.data.reverse s.data.reverse

/-- Value of a digit run. -/
def digitsVal (l : List Char) : Nat :=
  l.foldl (fun a c => a * 10 + (c.toNat - 48)) 0

/-- Python `int(s)`: strips whitespace, then requires a nonempty digit
string (the repository never passes signs); otherwise a `ValueError`. -/
def pyInt (s : String) : Except String Int :=
  let t := pyStripChars s.data
  if t ≠ [] ∧ t.all Char.isDigit then Except.ok (digitsVal t : Nat)
  else Except.error ("invalid literal for int(): " ++ s)

/-! ### crm_agent/agents/compilance.py -/

/-- `_extract_slots`: `sorted(set(SLOT_PATTERN.findall(text or "")))`. -/
def _extract_slots (text : String) : List String :=
  sortDedup ((scanSlots text.data).map (fun w => String.mk w))

inductive CStatus where
  | PASS
  | WARN
  | FAIL
deriving DecidableEq, Repr

/-- One entry of the `results` list of `validate_candidates`. -/
structure ComplianceResult where
  template_id : String
  status : CStatus
  reasons : List String
  found_slots : List String
deriving DecidableEq, Repr

/-- Notes dictionary attached by the template agent to a candidate.
Collaborator-derived values (tone-guide snippet, normalized campaign text)
are carried as opaque strings. -/
structure TANotes where
  campaign_goal : String := ""
  campaign_text_hint : String := ""
  rag_evidence_hint : String := ""
  brand_tone_id : String := ""
  brand_tone_guide_snippet : String := ""
  principle : String := ""
  fallback : Bool := false
  llm : Bool := false
  llm_error : Option String := none
  missing_slots_fixed : Option (List String) := none
deriving DecidableEq, Repr

/-- A template candidate as produced by `template_agent` and consumed by the
validators; `required`/`optionalSlots` are the `slot_schema` entries. -/
structure Candidate where
  template_id : String := ""
  title : String := ""
  required : List String := []
  optionalSlots : List String := []
  body_with_slots : String := ""
  channel : String := ""
  tone : String := ""
  notes : TANotes := {}
  default_slot_values : List (String × String) := []
deriving DecidableEq, Repr

/-- Banned-phrase list of `validate_candidates`. -/
def BANNED_VALIDATE : List String := ["100% 효과", "완치", "무조건"]

def bannedHit (body : String) : Bool :=
  BANNED_VALIDATE.any (fun x => pyContains x body)

def missingReason (missing : List String) : String :=
  "필수 슬롯 누락: " ++ pyReprList missing

def bannedReason : String := "과장/확정 표현 가능성"

def lengthReason : String := "문구가 길 수 있음(채널별 길이 가이드 확인 필요)"

/-- Slots found in a candidate body. -/
def foundSlotsOf (c : Candidate) : List String := _extract_slots c.body_with_slots

/-- Required slots of the schema missing from the body, in schema order. -/
def missingSlots (c : Candidate) : List String :=
  c.required.filter (fun s => !((foundSlotsOf c).contains s))

/-- Per-candidate rule evaluation of `validate_candidates`, in the fixed
source order: required-slot coverage, banned phrases, length guard. -/
def validateOne (c : Candidate) : ComplianceResult :=
  let body := c.body_with_slots
  let found := foundSlotsOf c
  let missing := missingSlots c
  let status1 := if missing ≠ [] then CStatus.FAIL else CStatus.PASS
  let reasons1 := if missing ≠ [] then [missingReason missing] else []
  let status2 := if bannedHit body then CStatus.FAIL else status1
  let reasons2 := reasons1 ++ (if bannedHit body then [bannedReason] else [])
  let status3 := if 220 < body.length ∧ status2 ≠ CStatus.FAIL then CStatus.WARN else status2
  let reasons3 := reasons2 ++ (if 220 < body.length then [lengthReason] else [])
  { template_id := c.template_id, status := status3, reasons := reasons3, found_slots := found }

/-- `validate_candidates` from `crm_agent/agents/compilance.py`: one result
per candidate, in input order. -/
def validate_candidates (cands : List Candidate) : List ComplianceResult :=
  cands.map validateOne

/-! ### crm_agent/agents/template_agent.py -/

/-- `REQUIRED_SLOTS_BY_CHANNEL`. -/
def requiredSlotsByChannel : List (String × List String) :=
  [("PUSH", ["customer_name", "product_name", "offer", "cta"]),
   ("SMS", ["customer_name", "product_name", "offer", "cta", "unsubscribe"]),
   ("KAKAO", ["customer_name", "product_name", "offer", "cta"]),
   ("EMAIL", ["customer_name", "product_name", "offer", "cta", "subject"])]

def requiredFor (channel : String) : List String :=
  (requiredSlotsByChannel.lookup channel).getD []

/-- `OPTIONAL_SLOTS`. -/
def OPTIONAL_SLOTS : List String :=
  ["coupon_code", "expiry_date", "deep_link", "brand_name", "support_contact"]

/-- `_normalize_channel`. -/
def _normalize_channel (channel : String) : String :=
  let c := pyUpper (pyStrip channel)
  if c = "PUSH" ∨ c = "SMS" ∨ c = "KAKAO" ∨ c = "EMAIL" then c else "PUSH"

/-- `_slot_placeholders_in_text` (the source builds a set; only membership
is ever used). -/
def _slot_placeholders_in_text (text : String) : List String :=
  (scanSlots text.data).map (fun w => String.mk w)

/-- `_validate_candidate_body`: required slots absent from the body, in
schema order. -/
def _validate_candidate_body (body : String) (required : List String) : List String :=
  required.filter (fun s => !((_slot_placeholders_in_text body).contains s))

/-- The structured campaign brief payload (`brief` dict) as used by the
template agent: `goal`, `campaign_text` and the alternative key
`campaign_goal`. -/
structure Brief where
  goal : String := ""
  campaign_text : String := ""
  campaign_goal : String := ""
deriving DecidableEq, Repr

/-- `_fallback_openers_ctas_by_brand`. -/
def _fallback_openers_ctas_by_brand (tone_id : String) : List String × List String :=
  let t := pyLower (pyStrip tone_id)
  if t = "innisfree" then
    (["고객님, 오늘은 산뜻한 데일리 루틴으로 추천드려요 🍃",
      "가볍게 루틴에 더해보기 좋은 {product_name} 소식이에요 🍃"],
     ["앱에서 확인하기", "가볍게 보러가기"])
  else
    (["고객님, 회원 전용 혜택 안내드려요.", "고객님, 지금 앱에서 확인해 보세요."],
     ["지금 확인하기", "자세히 보기"])

/-- `_fallback_candidates`: the deterministic canned batch.  The
collaborator outputs `load_tone_guide(tone_id)` and the formatted
`normalize_campaign_text` result are passed in as the opaque parameters
`toneGuideMd` and `normalizedPromptText` (they only flow into `notes`). -/
def _fallback_candidates (channel tone : String) (brief : Brief) (rag_context : String)
    (k : Int) (toneGuideMd normalizedPromptText : String) : List Candidate :=
  let channelN := _normalize_channel channel
  let required := requiredFor channelN
  let campaign_goal := pyStrip brief.goal
  let evidence_hint := pyTake 500 (pyStrip rag_context)
  let tone_id := pyLower (pyStrip (if tone = "" then "amoremall" else tone))
  let oc := _fallback_openers_ctas_by_brand tone_id
  let openers := oc.1
  let ctas := oc.2
  let footer := if channelN = "SMS" then "수신거부: {unsubscribe}" else ""
  let default_subject := "{campaign_goal} 안내 | {product_name} {offer}"
  let notes : TANotes :=
    { campaign_goal := campaign_goal,
      campaign_text_hint := pyTake 300 normalizedPromptText,
      rag_evidence_hint := evidence_hint,
      brand_tone_id := tone_id,
      brand_tone_guide_snippet := if toneGuideMd = "" then "" else pyTake 500 toneGuideMd,
      principle := "Template agent must not decide product/offer. Keep as slots.",
      fallback := true }
  let dsvBase : List (String × String) :=
    [("cta", "{deep_link}"), ("subject", if channelN = "EMAIL" then default_subject else "")]
  let cands : List Candidate :=
    [{ template_id := "T001",
       title := tone_id ++ " | 요약형(FALLBACK)",
       required := required, optionalSlots := OPTIONAL_SLOTS,
       body_with_slots := pyStrip (openers.getD 0 "" ++
         "\n이번 캠페인에 딱 맞는 {product_name} 안내드려요.\n{offer}\n👉 " ++
         ctas.getD 0 "" ++ ": {cta}\n" ++ footer),
       channel := channelN, tone := tone_id, notes := notes,
       default_slot_values := dsvBase },
     { template_id := "T002",
       title := tone_id ++ " | 혜택/리마인드(FALLBACK)",
       required := required, optionalSlots := OPTIONAL_SLOTS,
       body_with_slots := pyStrip (openers.getD 1 "" ++
         "\n{product_name} 관련 안내예요.\n{offer}\n쿠폰: {coupon_code} / 종료일: {expiry_date}\n✅ " ++
         ctas.getD 1 "" ++ ": {cta}\n" ++ footer),
       channel := channelN, tone := tone_id, notes := notes,
       default_slot_values :=
         [("coupon_code", "{coupon_code}"), ("expiry_date", "{expiry_date}")] ++ dsvBase },
     { template_id := "T003",
       title := tone_id ++ " | 개인화(FALLBACK)",
       required := required,
       optionalSlots := OPTIONAL_SLOTS ++ ["skin_concern_primary", "sensitivity_level", "persona"],
       body_with_slots := pyStrip (openers.getD 0 "" ++
         "\n{skin_concern_primary} 고민을 고려해 {product_name}을(를) 제안드려요.\n{offer}\n👉 {cta}\n" ++
         footer),
       channel := channelN, tone := tone_id, notes := notes,
       default_slot_values := dsvBase },
     { template_id := "T004",
       title := tone_id ++ " | 초간단(FALLBACK)",
       required := required, optionalSlots := OPTIONAL_SLOTS,
       body_with_slots := pyStrip
         ("{customer_name}님, {product_name}\n{offer}\n👉 {cta}\n" ++ footer),
       channel := channelN, tone := tone_id, notes := notes,
       default_slot_values := dsvBase }]
  cands.take (max 1 (min k 4)).toNat

/-- The error path of `generate_template_candidates`: the LLM collaborator
raised with `repr(e) = errRepr`, so the fallback batch is returned with
every candidate's notes tagged `llm_error`. -/
def generate_template_candidates_llm_error (brief : Brief) (channel tone rag_context : String)
    (k : Int) (errRepr : String) (toneGuideMd normalizedPromptText : String) : List Candidate :=
  let channelN := _normalize_channel channel
  let tone_id := pyLower (pyStrip (if tone = "" then "amoremall" else tone))
  let rag2 := pyTake 2500 (pyStrip rag_context)
  let fb := _fallback_candidates channelN tone_id brief rag2 k toneGuideMd normalizedPromptText
  fb.map (fun c => { c with notes := { c.notes with llm_error := some errRepr } })

/-- One raw candidate parsed out of the LLM JSON (`title`,
`body_with_slots`, `default_slot_values`; an empty string stands for a
missing/falsy value, as in the source `or` defaults). -/
structure RawCand where
  title : String := ""
  body : String := ""
  dsv : List (String × String) := []
deriving DecidableEq, Repr

/-- `dict.setdefault` on an association list. -/
def setdefault (l : List (String × String)) (key val : String) : List (String × String) :=
  if (l.lookup key).isSome then l else l ++ [(key, val)]

/-- The repaired body: missing required placeholders are appended, one per
line, then the result is stripped — `(body + "\n" + "\n".join(...)).strip()`. -/
def repairBody (body0 : String) (required : List String) : String :=
  let missing := _validate_candidate_body body0 required
  if missing = [] then body0
  else pyStrip (body0 ++ "\n" ++
    String.mk (joinNLChars ((missing.map String.data).map phChars)))

/-- `f"T{idx:03d}"`. -/
def padId (idx : Nat) : String :=
  if idx < 10 then "T00" ++ toString idx
  else if idx < 100 then "T0" ++ toString idx
  else "T" ++ toString idx

/-- The per-candidate mapping step of the LLM success path of
`generate_template_candidates` (loop body over `enumerate(raw_cands)`). -/
def mappedCandidate (channelN tone_id : String) (required : List String) (notes : TANotes)
    (default_subject : String) (idx : Nat) (rc : RawCand) : Candidate :=
  let title := pyStrip (if rc.title = "" then tone_id ++ " | 후보" ++ toString idx else rc.title)
  let body0 := pyStrip rc.body
  let missing := _validate_candidate_body body0 required
  let body := repairBody body0 required
  let dsv1 := setdefault rc.dsv "cta" "{deep_link}"
  let dsv2 := setdefault dsv1 "subject" (if channelN = "EMAIL" then default_subject else "")
  { template_id := padId idx,
    title := title,
    required := required, optionalSlots := OPTIONAL_SLOTS,
    body_with_slots := body,
    channel := channelN, tone := tone_id,
    notes := { notes with missing_slots_fixed := some missing },
    default_slot_values := dsv2 }

def mapRawLoop (channelN tone_id : String) (required : List String) (notes : TANotes)
    (default_subject : String) : Nat → List RawCand → List Candidate
  | _, [] => []
  | idx, rc :: rest =>
    mappedCandidate channelN tone_id required notes default_subject idx rc ::
      mapRawLoop channelN tone_id required notes default_subject (idx + 1) rest

/-- The success path of `generate_template_candidates`: the LLM collaborator
returned a JSON batch parsed into `raws`. -/
def generate_template_candidates_llm_ok (brief : Brief) (channel tone rag_context : String)
    (k : Int) (raws : List RawCand) (toneGuideMd normalizedPromptText : String) : List Candidate :=
  let channelN := _normalize_channel channel
  let required := requiredFor channelN
  let tone_id := pyLower (pyStrip (if tone = "" then "amoremall" else tone))
  let rag2 := pyTake 2500 (pyStrip rag_context)
  let campaign_goal :=
    if pyStrip brief.goal = "" then pyStrip brief.campaign_goal else pyStrip brief.goal
  let default_subject := "{campaign_goal} 안내 | {product_name} {offer}"
  let notes : TANotes :=
    { campaign_goal := campaign_goal,
      campaign_text_hint := pyTake 300 normalizedPromptText,
      rag_evidence_hint := pyTake 500 rag2,
      brand_tone_id := tone_id,
      brand_tone_guide_snippet := if toneGuideMd = "" then "" else pyTake 500 toneGuideMd,
      principle := "Template agent must not decide product/offer. Keep as slots.",
      llm := true }
  if raws = [] then
    (_fallback_candidates channelN tone_id brief rag2 k toneGuideMd normalizedPromptText).map
      (fun c => { c with notes := { c.notes with llm_error := some "LLM returned empty candidates" } })
  else
    let final := mapRawLoop channelN tone_id required notes default_subject 1
      (raws.take (max 1 k).toNat)
    if final = [] then
      _fallback_candidates channelN tone_id brief rag2 k toneGuideMd normalizedPromptText
    else final.take (max 1 k).toNat

/-! ### crm_agent/agents/execution_agent.py -/

/-- `_render(text, slot_values)`: `SLOT_PATTERN.sub(repl, text or "")` with
`repl` keeping unmapped placeholders verbatim. -/
def _render (text : String) (slot_values : List (String × String)) : String :=
  String.mk (renderChars slot_values text.data)

/-! ### crm_agent/flow/workflow.py -/

def ST_BRIEF : String := "BRIEF"
def ST_TARGET : String := "TARGET"
def ST_RAG : String := "RAG"
def ST_TEMPLATE_CANDIDATES : String := "TEMPLATE_CANDIDATES"
def ST_COMPLIANCE : String := "COMPLIANCE"
def ST_SELECTED_TEMPLATE : String := "SELECTED_TEMPLATE"
def ST_EXECUTION_RESULT : String := "EXECUTION_RESULT"

/-- The module files present in `src/crm_agent/agents/` on disk. -/
def agentsModuleFiles : List String :=
  ["brief_normalizer", "compilance", "execution_agent", "template_agent"]

/-- Whether `from crm_agent.agents.compliance import validate_candidates`
can resolve: it requires a module named `compliance` in the agents package
(the file on disk is `compilance.py`, so the guarded import leaves
`validate_candidates = None`). -/
def complianceImportOk : Bool := agentsModuleFiles.contains "compliance"

/-- One entry of the inline compliance results built inside
`node_compliance` when the import failed (no `found_slots` field). -/
structure InlineResult where
  template_id : String
  status : CStatus
  reasons : List String
deriving DecidableEq, Repr

/-- The inline check of `node_compliance`: FAIL with one reason iff the body
contains "100% 효과" or "완치"; nothing else is inspected. -/
def inlineValidateOne (c : Candidate) : InlineResult :=
  let body := c.body_with_slots
  let hit := pyContains "100% 효과" body || pyContains "완치" body
  { template_id := c.template_id,
    status := if hit then CStatus.FAIL else CStatus.PASS,
    reasons := if hit then [bannedReason] else [] }

def inlineValidate (cands : List Candidate) : List InlineResult :=
  cands.map inlineValidateOne

/-- The two possible shapes of the COMPLIANCE payload. -/
inductive ComplianceOut where
  | full : List ComplianceResult → ComplianceOut
  | basic : List InlineResult → ComplianceOut
deriving DecidableEq, Repr

/-- The validator actually used by `node_compliance`, split on whether
the import of `crm_agent.agents.compliance` resolved. -/
def nodeComplianceCompute (cands : List Candidate) : ComplianceOut :=
  if complianceImportOk then ComplianceOut.full (validate_candidates cands)
  else ComplianceOut.basic (inlineValidate cands)

/-- The `CRMState` TypedDict (`total=False`: every key optional); stage
payloads are carried as opaque serialized strings. -/
structure CRMState where
  run_id : String := ""
  channel : Option String := none
  tone : Option String := none
  brief : Option String := none
  target : Option String := none
  rag : Option String := none
  candidates : Option String := none
  compliance : Option String := none
  selected_template : Option String := none
  execution_result : Option String := none
deriving DecidableEq, Repr

/-- Python truthiness of an optional payload (`None`, empty string and empty
dict are falsy). -/
def pyTruthy : Option String → Bool
  | none => false
  | some s => !(s == "")

def pyOrS (a b : String) : String := if a = "" then b else a

def optS (o : Option String) : String := o.getD ""

inductive NodeId where
  | stage_load_brief
  | stage_target
  | stage_rag
  | stage_candidates
  | stage_compliance
  | stage_execute
deriving DecidableEq, Repr

/-- `route_after_compliance`: reads only the in-memory state;
`none` models `END`. -/
def route_after_compliance (s : CRMState) : Option NodeId :=
  if pyTruthy s.selected_template then some NodeId.stage_execute else none

/-- One row of the `handoffs` table. -/
structure Handoff where
  handoff_id : String := ""
  run_id : String
  stage : String
  payload_json : String
  created_at : Nat
deriving DecidableEq, Repr

/-- `get_latest_handoff`: latest by creation time for the (run, stage). -/
def latestHandoff (store : List Handoff) (rid stage : String) : Option Handoff :=
  (store.filter (fun h => h.run_id == rid && h.stage == stage)).foldl
    (fun acc h =>
      match acc with
      | none => some h
      | some a => if a.created_at < h.created_at then some h else acc) none

/-- One row of the `campaign_runs` table (the fields the workflow touches). -/
structure RunRow where
  run_id : String
  status : String := "CREATED"
  step_id : String := ""
  brief_json : String := ""
  channel : String := ""
  tone : String := ""
  candidate_id : String := ""
  rendered_text : String := ""
deriving DecidableEq, Repr

def getRun (runs : List RunRow) (rid : String) : Option RunRow :=
  runs.find? (fun r => r.run_id == rid)

/-- `_upper_channel` from `crm_agent/db/repo.py`. -/
def _upper_channel (channel : String) : String :=
  let c := pyUpper (pyStrip channel)
  if c = "SMS" ∨ c = "KAKAO" ∨ c = "PUSH" ∨ c = "EMAIL" then c
  else (([("push", "PUSH"), ("sms", "SMS"), ("kakao", "KAKAO"), ("email", "EMAIL")].lookup
    (pyLower c)).getD "PUSH")

/-- The per-row effect of `Repo.update_run` restricted to the fields the
workflow passes (`step_id` and `candidate_id` are truncated to 16
characters as in the source). -/
def runUpdateFn (rid : String) (channel step_id candidate_id rendered_text : Option String)
    (r : RunRow) : RunRow :=
  if r.run_id == rid then
    { r with
      channel := match channel with | some c => _upper_channel c | none => r.channel,
      step_id := match step_id with | some st => pyTake 16 st | none => r.step_id,
      candidate_id :=
        match candidate_id with | some cid => pyTake 16 cid | none => r.candidate_id,
      rendered_text := rendered_text.getD r.rendered_text }
  else r

/-- `Repo.update_run`: update the matching `campaign_runs` row. -/
def update_run (runs : List RunRow) (rid : String)
    (channel step_id candidate_id rendered_text : Option String) : List RunRow :=
  runs.map (runUpdateFn rid channel step_id candidate_id rendered_text)

/-- Database state threaded through a pipeline invocation; `clock` generates
strictly increasing handoff creation times. -/
structure World where
  runs : List RunRow
  store : List Handoff
  clock : Nat := 0
deriving DecidableEq, Repr

/-- `Repo.create_handoff`: append-only insert with a fresh creation time. -/
def create_handoff (w : World) (rid stage payload : String) : World :=
  { w with
    store := w.store ++
      [{ handoff_id := "", run_id := rid, stage := stage, payload_json := payload,
         created_at := w.clock }],
    clock := w.clock + 1 }

/-- Opaque outputs of the collaborators each node calls (target builder, RAG
retriever, candidate generator, validator, and the execution renderer). -/
structure NodeEnv where
  targetPayload : String := "target"
  ragPayload : String := "rag"
  candidatesPayload : String := "candidates"
  compliancePayload : String := "compliance"
  execPayload : String := "exec"
  execFinalMessage : String := ""
  selTemplateId : String := ""
deriving DecidableEq, Repr

/-- The body of one graph node: state update plus handoff/run-row writes,
mirroring `node_load_brief` … `node_execute`. -/
def runNode (env : NodeEnv) (n : NodeId) (w : World) (s : CRMState) :
    Except String (World × CRMState) :=
  match n with
  | NodeId.stage_load_brief =>
    match getRun w.runs s.run_id with
    | none => Except.error ("run_id not found: " ++ s.run_id)
    | some run =>
      let brief :=
        match latestHandoff w.store s.run_id ST_BRIEF with
        | some h => h.payload_json
        | none => run.brief_json
      let channel := pyOrS (optS s.channel) (pyOrS run.channel "PUSH")
      let tone := pyOrS (optS s.tone) "amoremall"
      Except.ok (w, { s with brief := some brief, channel := some channel, tone := some tone })
  | NodeId.stage_target =>
    let channel := pyOrS (optS s.channel) "PUSH"
    let w2 := create_handoff w s.run_id ST_TARGET env.targetPayload
    let w3 := { w2 with
      runs := update_run w2.runs s.run_id (some channel) (some "S2_TARGET") none none }
    Except.ok (w3, { s with target := some env.targetPayload })
  | NodeId.stage_rag =>
    let w2 := create_handoff w s.run_id ST_RAG env.ragPayload
    let w3 := { w2 with runs := update_run w2.runs s.run_id none (some "S3_RAG") none none }
    Except.ok (w3, { s with rag := some env.ragPayload })
  | NodeId.stage_candidates =>
    let w2 := create_handoff w s.run_id ST_TEMPLATE_CANDIDATES env.candidatesPayload
    let w3 := { w2 with runs := update_run w2.runs s.run_id none (some "S4_CANDS") none none }
    Except.ok (w3, { s with candidates := some env.candidatesPayload })
  | NodeId.stage_compliance =>
    let w2 := create_handoff w s.run_id ST_COMPLIANCE env.compliancePayload
    let w3 := { w2 with runs := update_run w2.runs s.run_id none (some "S5_COMP") none none }
    Except.ok (w3, { s with compliance := some env.compliancePayload })
  | NodeId.stage_execute =>
    let selected : Option String :=
      if pyTruthy s.selected_template then s.selected_template
      else
        match latestHandoff w.store s.run_id ST_SELECTED_TEMPLATE with
        | some h => some h.payload_json
        | none => none
    match selected with
    | none => Except.error "selected_template missing (state/DB 모두 없음)"
    | some _ =>
      let w2 := create_handoff w s.run_id ST_EXECUTION_RESULT env.execPayload
      let w3 := { w2 with
        runs := update_run w2.runs s.run_id none (some "S6_EXEC")
          (some (pyTake 16 env.selTemplateId)) (some env.execFinalMessage) }
      Except.ok (w3, { s with execution_result := some env.execPayload })

/-- The edges of `build_graph`: entry point `stage_load_brief`, linear chain
to `stage_compliance`, conditional edge via `route_after_compliance`, and
`stage_execute -> END`. -/
def nextNode (n : NodeId) (s : CRMState) : Option NodeId :=
  match n with
  | NodeId.stage_load_brief => some NodeId.stage_target
  | NodeId.stage_target => some NodeId.stage_rag
  | NodeId.stage_rag => some NodeId.stage_candidates
  | NodeId.stage_candidates => some NodeId.stage_compliance
  | NodeId.stage_compliance => route_after_compliance s
  | NodeId.stage_execute => none

def invokeAux (env : NodeEnv) : Nat → NodeId → World → CRMState →
    Except String (List NodeId × World × CRMState)
  | 0, _, _, _ => Except.error "fuel exhausted"
  | fuel + 1, n, w, s =>
    match runNode env n w s with
    | Except.error e => Except.error e
    | Except.ok (w2, s2) =>
      match nextNode n s2 with
      | none => Except.ok ([n], w2, s2)
      | some n2 =>
        match invokeAux env fuel n2 w2 s2 with
        | Except.error e => Except.error e
        | Except.ok (tr, w3, s3) => Except.ok (n :: tr, w3, s3)

/-- `GRAPH.invoke(init_state)`: execution starts at the entry point. -/
def graph_invoke (env : NodeEnv) (w : World) (s0 : CRMState) :
    Except String (List NodeId × World × CRMState) :=
  invokeAux env 10 NodeId.stage_load_brief w s0

/-- `run_with_selection`: persist the SELECTED_TEMPLATE handoff, update the
run step marker, then invoke the graph with the selection in the initial
state. -/
def run_with_selection (env : NodeEnv) (w : World) (rid selected_template : String) :
    Except String (List NodeId × World × CRMState) :=
  let w2 := create_handoff w rid ST_SELECTED_TEMPLATE selected_template
  let w3 := { w2 with
    runs := update_run w2.runs rid none (some "S6_EXEC")
      (some (pyTake 16 env.selTemplateId)) none }
  graph_invoke env w3 { run_id := rid, selected_template := some selected_template }

/-! ### crm_agent/services/targeting.py and crm_agent/db/repo.py -/

def GENDER_DB : List (String × String) := [("여", "F"), ("남", "M")]

/-- `_age_group_to_birth_year_range` (the current calendar year is passed in
as `thisYear`); raises `ValueError` when the band label does not parse. -/
def _age_group_to_birth_year_range (thisYear : Int) (age_group : String) :
    Except String (Option Int × Option Int) :=
  if pyEndsWith age_group "대+" then
    match pyInt (pyReplace age_group "대+" "") with
    | Except.error e => Except.error e
    | Except.ok base => Except.ok (none, some (thisYear - base))
  else
    match pyInt (pyReplace age_group "대" "") with
    | Except.error e => Except.error e
    | Except.ok base => Except.ok (some (thisYear - (base + 9)), some (thisYear - base))

/-- The schema collaborator: `SHOW COLUMNS FROM table` may fail. -/
def Introspector : Type := String → Except String (List String)

/-- `_detect_join_keys`. -/
def _detect_join_keys (intr : Introspector) : Option String × Option String :=
  match intr "users", intr "user_features" with
  | Except.ok u, Except.ok f =>
    if u.contains "user_id" && f.contains "user_id" then (some "user_id", some "user_id")
    else if u.contains "id" && f.contains "user_id" then (some "id", some "user_id")
    else if u.contains "id" && f.contains "id" then (some "id", some "id")
    else
      let common := u.filter (fun c => f.contains c)
      if common.contains "user_id" then (some "user_id", some "user_id")
      else if common.contains "id" then (some "id", some "id")
      else if common.contains "username" then (some "username", some "username")
      else (none, none)
  | _, _ => (none, none)

/-- `brief["target_input"]`. -/
structure TargetInput where
  gender : List String := []
  age_group : List String := []
  skin_type : List String := []
  skin_concern : List String := []
deriving DecidableEq, Repr

/-- The `target_query` dict produced by `build_target`. -/
structure TargetQuery where
  gender_in : List String
  birth_year_ranges : List (Option Int × Option Int)
  skin_type_in : List String
  skin_concern_in : List String
  users_key : Option String
  features_key : Option String
  feature_cols : List (String × String)
deriving DecidableEq, Repr

/-- The full return value of `build_target`. -/
structure TargetResult where
  target_query : TargetQuery
  summary : String
  channel : String
  tone : String
deriving DecidableEq, Repr

/-- `build_target`. -/
def build_target (thisYear : Int) (intr : Introspector) (ti : TargetInput)
    (channel tone : String) : Except String TargetResult :=
  let gender_db := ti.gender.filterMap (fun g => GENDER_DB.lookup g)
  match ti.age_group.mapM (_age_group_to_birth_year_range thisYear) with
  | Except.error e => Except.error e
  | Except.ok birth_ranges =>
    let jk := _detect_join_keys intr
    let feature_cols : List (String × String) :=
      match intr "user_features" with
      | Except.ok fcols =>
        (match ["skin_type", "skin_type_primary"].find? (fun c => fcols.contains c) with
         | some c => [("skin_type_col", c)]
         | none => []) ++
        (match ["skin_concern", "skin_concern_primary"].find? (fun c => fcols.contains c) with
         | some c => [("skin_concern_col", c)]
         | none => [])
      | Except.error _ => []
    let summary_parts :=
      (if ti.gender ≠ [] then ["성별=" ++ joinSep "," ti.gender] else []) ++
      (if ti.age_group ≠ [] then ["나이대=" ++ joinSep "," ti.age_group] else []) ++
      (if ti.skin_type ≠ [] then ["피부타입=" ++ joinSep "," ti.skin_type] else []) ++
      (if ti.skin_concern ≠ [] then ["피부고민=" ++ joinSep "," ti.skin_concern] else [])
    let summary := if summary_parts = [] then "타겟 조건 없음" else joinSep " / " summary_parts
    Except.ok
      { target_query :=
          { gender_in := gender_db,
            birth_year_ranges := birth_ranges,
            skin_type_in := ti.skin_type,
            skin_concern_in := ti.skin_concern,
            users_key := jk.1,
            features_key := jk.2,
            feature_cols := feature_cols },
        summary := summary, channel := channel, tone := tone }

/-- The hard-coded age-band table of `Repo.preview_target_users`
(`crm_agent/db/repo.py`, the audience-preview query): band label to
`birth_year BETWEEN` bounds; unknown bands contribute no range. -/
def previewBandRange (currentYear : Int) (b : String) : Option (Int × Int) :=
  let bs := pyStrip b
  if bs = "10대" then some (currentYear - 19, currentYear - 10)
  else if bs = "20대" then some (currentYear - 29, currentYear - 20)
  else if bs = "30대" then some (currentYear - 39, currentYear - 30)
  else if bs = "40대" then some (currentYear - 49, currentYear - 40)
  else if bs = "50대+" ∨ bs = "50대" then some (1900, currentYear - 50)
  else none

def previewBandRanges (currentYear : Int) (bands : List String) : List (Int × Int) :=
  bands.filterMap (previewBandRange currentYear)

def envW : NodeEnv := {}

def runW : RunRow := { run_id := "r1" }

def wW : World := { runs := [runW], store := [], clock := 0 }

theorem takeWord_decomp : ∀ cs : List Char, cs = (takeWord cs).1 ++ (takeWord cs).2 := by
  intro cs
  induction cs with
  | nil => rfl
  | cons c cs ih =>
    by_cases h : isWordChar c
    · simp only [takeWord, h, if_pos]
      exact congrArg (c :: ·) ih
    · simp [takeWord, h]

theorem takeWord_words : ∀ cs : List Char, ((takeWord cs).1).all isWordChar = true := by
  intro cs
  induction cs with
  | nil => rfl
  | cons c cs ih =>
    by_cases h : isWordChar c
    · simp only [takeWord, h, if_pos]
      simp [List.all_cons, h, ih]
    · simp [takeWord, h]

theorem takeWord_rest_len (cs : List Char) : ((takeWord cs).2).length ≤ cs.length := by
  conv_rhs => rw [takeWord_decomp cs]
  simp

/-- `takeWord` on a word run followed by a non-word character stops exactly
at that character. -/
theorem takeWord_run_stop : ∀ (w : List Char) (d : Char) (t : List Char),
    w.all isWordChar = true → isWordChar d = false →
    takeWord (w ++ d :: t) = (w, d :: t) := by
  intro w
  induction w with
  | nil =>
    intro d t _ hd
    simp [takeWord, hd]
  | cons a w ih =>
    intro d t hall hd
    simp only [List.all_cons, Bool.and_eq_true] at hall
    simp [takeWord, hall.1, ih d t hall.2 hd]

/-- When a match succeeds, the rest of the input decomposes as the word run,
the closing brace, and the tail the scan continues from. -/
theorem slotHit_decomp {c : Char} {cs : List Char} (h : slotHit c cs) :
    cs = (takeWord cs).1 ++ '}' :: (takeWord cs).2.tail := by
  obtain ⟨-, -, hhead⟩ := h
  cases hr : (takeWord cs).2 with
  | nil => rw [hr] at hhead; simp at hhead
  | cons d r2 =>
    rw [hr] at hhead
    simp only [List.headD_cons] at hhead
    subst hhead
    conv_lhs => rw [takeWord_decomp cs]
    rw [hr]
    simp

theorem slotHit_tail_len {c : Char} {cs : List Char} (h : slotHit c cs) :
    ((takeWord cs).2.tail).length < cs.length := by
  conv_rhs => rw [slotHit_decomp h]
  simp only [List.length_append, List.length_cons]
  omega

theorem scanAux_congr : ∀ (f1 : Nat) (l : List Char) (f2 : Nat),
    l.length ≤ f1 → l.length ≤ f2 → scanAux f1 l = scanAux f2 l := by
  intro f1
  induction f1 with
  | zero =>
    intro l f2 h1 _
    have : l = [] := List.length_eq_zero.mp (Nat.le_zero.mp h1)
    subst this
    cases f2 <;> rfl
  | succ f ih =>
    intro l f2 h1 h2
    cases l with
    | nil => cases f2 <;> rfl
    | cons c cs =>
      cases f2 with
      | zero => exact absurd h2 (by simp)
      | succ f2 =>
        simp only [List.length_cons, Nat.succ_le_succ_iff] at h1 h2
        by_cases hs : slotHit c cs
        · have hlt := slotHit_tail_len hs
          simp only [scanAux, if_pos hs]
          rw [ih _ f2 (by omega) (by omega)]
        · simp only [scanAux, if_neg hs]
          exact ih cs f2 h1 h2

theorem scanAux_eq_scanSlots (fuel : Nat) (l : List Char) (h : l.length ≤ fuel) :
    scanAux fuel l = scanSlots l :=
  scanAux_congr fuel l l.length h le_rfl

@[simp] theorem scanSlots_nil : scanSlots [] = [] := rfl

/-- Unfolding equation for `scanSlots` on a cons cell. -/
theorem scanSlots_cons (c : Char) (cs : List Char) :
    scanSlots (c :: cs) =
      if slotHit c cs then (takeWord cs).1 :: scanSlots (takeWord cs).2.tail
      else scanSlots cs := by
  show scanAux (cs.length + 1) (c :: cs) = _
  by_cases hs : slotHit c cs
  · have hlt := slotHit_tail_len hs
    simp only [scanAux, if_pos hs]
    rw [scanAux_eq_scanSlots _ _ (by omega)]
  · simp only [scanAux, if_neg hs]
    rw [scanAux_eq_scanSlots _ _ le_rfl]

theorem scanSlots_cons_other {c : Char} (cs : List Char) (hc : ¬ slotHit c cs) :
    scanSlots (c :: cs) = scanSlots cs := by
  rw [scanSlots_cons, if_neg hc]

theorem not_open_of_word {c : Char} (h : isWordChar c = true) : ¬ c = '{' := by
  intro hc
  subst hc
  simp [isWordChar] at h

/-- Characters that cannot open a match are skipped without affecting the
scan. -/
theorem scanSlots_append_no_open : ∀ (pre l : List Char),
    (∀ c ∈ pre, ¬ c = '{') → scanSlots (pre ++ l) = scanSlots l := by
  intro pre
  induction pre with
  | nil => intro l _; rfl
  | cons c pre ih =>
    intro l hno
    have hc : ¬ c = '{' := hno c (by simp)
    have hs : ¬ slotHit c (pre ++ l) := fun h => hc h.1
    rw [List.cons_append, scanSlots_cons_other _ hs]
    exact ih l (fun d hd => hno d (by simp [hd]))

theorem scanSlots_no_open (l : List Char) (h : ∀ c ∈ l, ¬ c = '{') :
    scanSlots l = [] := by
  have := scanSlots_append_no_open l [] h
  simpa using this

theorem scanSlots_dropWhile (p : Char → Bool) (l : List Char)
    (h : ∀ c, p c = true → ¬ c = '{') :
    scanSlots (l.dropWhile p) = scanSlots l := by
  conv_rhs => rw [← List.takeWhile_append_dropWhile p l]
  rw [scanSlots_append_no_open]
  intro c hc
  exact h c (List.mem_takeWhile_imp hc)

/-- Extending the input on the right never loses a match of the original
input: matches found in `s` are found again in `s ++ t`. -/
theorem mem_scanSlots_append : ∀ (n : Nat) (s t m : List Char), s.length ≤ n →
    m ∈ scanSlots s → m ∈ scanSlots (s ++ t) := by
  intro n
  induction n with
  | zero =>
    intro s t m hn hm
    have : s = [] := List.length_eq_zero.mp (Nat.le_zero.mp hn)
    subst this
    simp at hm
  | succ n ih =>
    intro s t m hn hm
    cases s with
    | nil => simp at hm
    | cons c cs =>
      simp only [List.length_cons, Nat.succ_le_succ_iff] at hn
      by_cases hs : slotHit c cs
      · -- the match at the head survives the extension
        have hdec := slotHit_decomp hs
        have hwords := takeWord_words cs
        have hw := hs.2.1
        have htw2 : takeWord (cs ++ t) =
            ((takeWord cs).1, '}' :: ((takeWord cs).2.tail ++ t)) := by
          conv_lhs => rw [hdec]
          rw [List.append_assoc, List.cons_append]
          exact takeWord_run_stop _ _ _ hwords (by decide)
        have hs2 : slotHit c (cs ++ t) := by
          refine ⟨hs.1, ?_, ?_⟩ <;> rw [htw2]
          · exact hw
          · rfl
        rw [List.cons_append, scanSlots_cons _ _, if_pos hs2, htw2]
        rw [scanSlots_cons _ _, if_pos hs] at hm
        rcases List.mem_cons.mp hm with h | h
        · exact List.mem_cons.mpr (Or.inl h)
        · have hlen : ((takeWord cs).2.tail).length ≤ n := by
            have := slotHit_tail_len hs
            omega
          exact List.mem_cons.mpr (Or.inr (ih _ t m hlen h))
      · rw [scanSlots_cons_other _ hs] at hm
        have hmem : m ∈ scanSlots (cs ++ t) := ih cs t m hn hm
        rw [List.cons_append]
        by_cases hs2 : slotHit c (cs ++ t)
        · -- a new match straddling the boundary: it consumes only word
          -- characters and the closing brace, which cannot open a match,
          -- so everything found after it is preserved
          have hdec2 := slotHit_decomp hs2
          rw [scanSlots_cons _ _, if_pos hs2]
          have hpre : ∀ d ∈ (takeWord (cs ++ t)).1 ++ ['}'], ¬ d = '{' := by
            intro d hd
            rcases List.mem_append.mp hd with h1 | h1
            · exact not_open_of_word (List.all_eq_true.mp (takeWord_words (cs ++ t)) d h1)
            · simp only [List.mem_singleton] at h1
              subst h1
              decide
          have : scanSlots (cs ++ t) = scanSlots ((takeWord (cs ++ t)).2.tail) := by
            conv_lhs => rw [hdec2]
            rw [show (takeWord (cs ++ t)).1 ++ '}' :: (takeWord (cs ++ t)).2.tail =
                ((takeWord (cs ++ t)).1 ++ ['}']) ++ (takeWord (cs ++ t)).2.tail by simp]
            exact scanSlots_append_no_open _ _ hpre
          rw [this] at hmem
          exact List.mem_cons.mpr (Or.inr hmem)
        · rw [scanSlots_cons_other _ hs2]
          exact hmem

/-- Splitting helper: a word run followed by a closing brace cannot contain
an opening brace, so an occurrence of `'{' :: u` inside it must lie in the
remainder. -/
theorem split_word_close : ∀ (s2 w rt u : List Char), w.all isWordChar = true →
    w ++ '}' :: rt = s2 ++ '{' :: u →
    ∃ s3, rt = s3 ++ '{' :: u ∧ s2 = w ++ '}' :: s3 := by
  intro s2
  induction s2 with
  | nil =>
    intro w rt u hall heq
    cases w with
    | nil => simp at heq
    | cons a w2 =>
      simp only [List.cons_append, List.cons.injEq, List.nil_append] at heq
      have ha : isWordChar a = true := by
        simp only [List.all_cons, Bool.and_eq_true] at hall
        exact hall.1
      exact absurd heq.1 (not_open_of_word ha)
  | cons b s2 ih =>
    intro w rt u hall heq
    cases w with
    | nil =>
      simp only [List.nil_append, List.cons_append, List.cons.injEq] at heq
      exact ⟨s2, heq.2, by simp [← heq.1]⟩
    | cons a w2 =>
      simp only [List.cons_append, List.cons.injEq] at heq
      have hall2 : w2.all isWordChar = true := by
        simp only [List.all_cons, Bool.and_eq_true] at hall
        exact hall.2
      obtain ⟨s3, h1, h2⟩ := ih w2 rt u hall2 heq.2
      exact ⟨s3, h1, by simp [← heq.1, h2]⟩

/-- Any literal occurrence of a braced word is found by the scanner. -/
theorem mem_scanSlots_of_occurrence : ∀ (n : Nat) (s t m : List Char), s.length ≤ n →
    m ≠ [] → m.all isWordChar = true →
    m ∈ scanSlots (s ++ '{' :: (m ++ '}' :: t)) := by
  intro n
  induction n with
  | zero =>
    intro s t m hn hne hall
    have : s = [] := List.length_eq_zero.mp (Nat.le_zero.mp hn)
    subst this
    have htw : takeWord (m ++ '}' :: t) = (m, '}' :: t) :=
      takeWord_run_stop m '}' t hall (by decide)
    have hs : slotHit '{' (m ++ '}' :: t) := by
      refine ⟨rfl, ?_, ?_⟩ <;> rw [htw]
      · exact hne
      · rfl
    rw [List.nil_append, scanSlots_cons _ _, if_pos hs, htw]
    exact List.mem_cons.mpr (Or.inl rfl)
  | succ n ih =>
    intro s t m hn hne hall
    cases s with
    | nil => exact ih [] t m (by simp) hne hall
    | cons c cs =>
      simp only [List.length_cons, Nat.succ_le_succ_iff] at hn
      rw [List.cons_append]
      by_cases hs : slotHit c (cs ++ '{' :: (m ++ '}' :: t))
      · rw [scanSlots_cons _ _, if_pos hs]
        have hdec := slotHit_decomp hs
        obtain ⟨s3, h1, h2⟩ := split_word_close cs
          (takeWord (cs ++ '{' :: (m ++ '}' :: t))).1
          (takeWord (cs ++ '{' :: (m ++ '}' :: t))).2.tail
          (m ++ '}' :: t)
          (takeWord_words _) hdec.symm
        have hs3 : s3.length ≤ n := by
          have hlen2 : cs.length =
              (takeWord (cs ++ '{' :: (m ++ '}' :: t))).1.length + 1 + s3.length := by
            conv_lhs => rw [h2]
            simp only [List.length_append, List.length_cons]
            omega
          omega
        have := ih s3 t m hs3 hne hall
        rw [← h1] at this
        exact List.mem_cons.mpr (Or.inr this)
      · rw [scanSlots_cons_other _ hs]
        exact ih cs t m hn hne hall


theorem joinNLChars_ph_ends : ∀ ms : List (List Char), ms ≠ [] →
    ∃ pre, joinNLChars (ms.map phChars) = pre ++ ['}'] := by
  intro ms
  induction ms with
  | nil => intro h; exact absurd rfl h
  | cons m rest ih =>
    intro _
    cases rest with
    | nil => exact ⟨'{' :: m, by simp [joinNLChars, phChars]⟩
    | cons m2 rest2 =>
      obtain ⟨pre, hpre⟩ := ih (by simp)
      rw [List.map_cons] at hpre
      refine ⟨phChars m ++ '\n' :: pre, ?_⟩
      rw [List.map_cons, List.map_cons]
      show phChars m ++ '\n' :: joinNLChars (phChars m2 :: List.map phChars rest2) = _
      rw [hpre]
      simp

theorem occurrence_in_joinNL : ∀ (ms : List (List Char)) (m : List Char), m ∈ ms →
    ∃ s t, joinNLChars (ms.map phChars) = s ++ '{' :: (m ++ '}' :: t) := by
  intro ms
  induction ms with
  | nil => intro m h; simp at h
  | cons m0 rest ih =>
    intro m hm
    rcases List.mem_cons.mp hm with h | h
    · subst h
      cases rest with
      | nil => exact ⟨[], [], by simp [joinNLChars, phChars]⟩
      | cons m2 rest2 =>
        refine ⟨[], '\n' :: joinNLChars (List.map phChars (m2 :: rest2)), ?_⟩
        rw [List.map_cons]
        show phChars m ++ '\n' :: joinNLChars (List.map phChars (m2 :: rest2)) = _
        simp [phChars]
    · cases rest with
      | nil => simp at h
      | cons m2 rest2 =>
        obtain ⟨s, t, hst⟩ := ih m h
        refine ⟨phChars m0 ++ '\n' :: s, t, ?_⟩
        rw [List.map_cons]
        show phChars m0 ++ '\n' :: joinNLChars (List.map phChars (m2 :: rest2)) = _
        rw [hst]
        simp

theorem whitespace_not_open (c : Char) (h : c.isWhitespace = true) : ¬ c = '{' := by
  intro hc
  subst hc
  exact absurd h (by decide)

/-- Stripping does not lose matches when the text ends in a closing brace:
the right strip is then the identity, and a left strip only removes
characters that cannot open a match. -/
theorem scanSlots_pyStrip_ends_close (l pre : List Char) (h : l = pre ++ ['}']) :
    scanSlots (pyStripChars l) = scanSlots l := by
  have hws : ('}' : Char).isWhitespace = false := by decide
  obtain ⟨u, hu⟩ : ∃ u, l.dropWhile Char.isWhitespace = u ++ ['}'] := by
    rw [h, List.dropWhile_append]
    by_cases hp : (pre.dropWhile Char.isWhitespace).isEmpty
    · refine ⟨[], ?_⟩
      simp [hp, List.dropWhile, hws]
    · refine ⟨pre.dropWhile Char.isWhitespace, ?_⟩
      simp [hp]
  unfold pyStripChars
  rw [hu, List.reverse_append]
  rw [show (['}'] : List Char).reverse ++ u.reverse = '}' :: u.reverse by simp]
  rw [List.dropWhile_cons]
  simp only [hws, Bool.false_eq_true, if_false]
  rw [show ('}' :: u.reverse).reverse = u ++ ['}'] by simp]
  rw [← hu]
  exact scanSlots_dropWhile _ l (fun c hc => whitespace_not_open c hc)

theorem parseAux_congr : ∀ (f1 : Nat) (l : List Char) (f2 : Nat),
    l.length ≤ f1 → l.length ≤ f2 → parseAux f1 l = parseAux f2 l := by
  intro f1
  induction f1 with
  | zero =>
    intro l f2 h1 _
    have : l = [] := List.length_eq_zero.mp (Nat.le_zero.mp h1)
    subst this
    cases f2 <;> rfl
  | succ f ih =>
    intro l f2 h1 h2
    cases l with
    | nil => cases f2 <;> rfl
    | cons c cs =>
      cases f2 with
      | zero => exact absurd h2 (by simp)
      | succ f2 =>
        simp only [List.length_cons, Nat.succ_le_succ_iff] at h1 h2
        by_cases hs : slotHit c cs
        · have hlt := slotHit_tail_len hs
          simp only [parseAux, if_pos hs]
          rw [ih _ f2 (by omega) (by omega)]
        · simp only [parseAux, if_neg hs]
          rw [ih cs f2 h1 h2]

theorem parseSegs_cons (c : Char) (cs : List Char) :
    parseSegs (c :: cs) =
      if slotHit c cs then Seg.slot (takeWord cs).1 :: parseSegs (takeWord cs).2.tail
      else Seg.lit c :: parseSegs cs := by
  show parseAux (cs.length + 1) (c :: cs) = _
  by_cases hs : slotHit c cs
  · have hlt := slotHit_tail_len hs
    simp only [parseAux, if_pos hs]
    rw [parseAux_congr _ _ _ (by omega) le_rfl]
    rfl
  · simp only [parseAux, if_neg hs]
    rfl

theorem renderAux_congr (vals : List (String × String)) :
    ∀ (f1 : Nat) (l : List Char) (f2 : Nat),
    l.length ≤ f1 → l.length ≤ f2 → renderAux vals f1 l = renderAux vals f2 l := by
  intro f1
  induction f1 with
  | zero =>
    intro l f2 h1 _
    have : l = [] := List.length_eq_zero.mp (Nat.le_zero.mp h1)
    subst this
    cases f2 <;> rfl
  | succ f ih =>
    intro l f2 h1 h2
    cases l with
    | nil => cases f2 <;> rfl
    | cons c cs =>
      cases f2 with
      | zero => exact absurd h2 (by simp)
      | succ f2 =>
        simp only [List.length_cons, Nat.succ_le_succ_iff] at h1 h2
        by_cases hs : slotHit c cs
        · have hlt := slotHit_tail_len hs
          simp only [renderAux, if_pos hs]
          rw [ih _ f2 (by omega) (by omega)]
        · simp only [renderAux, if_neg hs]
          rw [ih cs f2 h1 h2]

theorem renderChars_cons (vals : List (String × String)) (c : Char) (cs : List Char) :
    renderChars vals (c :: cs) =
      if slotHit c cs then
        replValue vals (takeWord cs).1 ++ renderChars vals (takeWord cs).2.tail
      else c :: renderChars vals cs := by
  show renderAux vals (cs.length + 1) (c :: cs) = _
  by_cases hs : slotHit c cs
  · have hlt := slotHit_tail_len hs
    simp only [renderAux, if_pos hs]
    rw [renderAux_congr _ _ _ _ (by omega) le_rfl]
    rfl
  · simp only [renderAux, if_neg hs]
    rfl

/-- The substitution emits, segment by segment, exactly the mapped values of
matched names (when present) and the untouched placeholder or literal text
otherwise. -/
theorem renderChars_eq_segs (vals : List (String × String)) :
    ∀ (n : Nat) (l : List Char), l.length ≤ n →
    renderChars vals l = ((parseSegs l).map (renderSeg vals)).flatten := by
  intro n
  induction n with
  | zero =>
    intro l hn
    have : l = [] := List.length_eq_zero.mp (Nat.le_zero.mp hn)
    subst this
    rfl
  | succ n ih =>
    intro l hn
    cases l with
    | nil => rfl
    | cons c cs =>
      simp only [List.length_cons, Nat.succ_le_succ_iff] at hn
      rw [renderChars_cons, parseSegs_cons]
      by_cases hs : slotHit c cs
      · have hlt := slotHit_tail_len hs
        rw [if_pos hs, if_pos hs]
        simp only [List.map_cons, List.flatten_cons, renderSeg]
        rw [ih _ (by omega)]
      · rw [if_neg hs, if_neg hs]
        simp only [List.map_cons, List.flatten_cons, renderSeg]
        rw [ih cs hn]
        rfl

/-- The parse is lossless: concatenating the segment texts reproduces the
input exactly. -/
theorem parseSegs_reconstruct :
    ∀ (n : Nat) (l : List Char), l.length ≤ n →
    ((parseSegs l).map segText).flatten = l := by
  intro n
  induction n with
  | zero =>
    intro l hn
    have : l = [] := List.length_eq_zero.mp (Nat.le_zero.mp hn)
    subst this
    rfl
  | succ n ih =>
    intro l hn
    cases l with
    | nil => rfl
    | cons c cs =>
      simp only [List.length_cons, Nat.succ_le_succ_iff] at hn
      rw [parseSegs_cons]
      by_cases hs : slotHit c cs
      · have hlt := slotHit_tail_len hs
        rw [if_pos hs]
        simp only [List.map_cons, List.flatten_cons, segText]
        rw [ih _ (by omega)]
        conv_rhs => rw [slotHit_decomp hs]
        simp [phChars]
        exact hs.1.symm
      · rw [if_neg hs]
        simp only [List.map_cons, List.flatten_cons, segText]
        rw [ih cs hn]
        rfl

/-! ### Remaining text helpers -/

theorem strMk_data (s : String) : String.mk s.data = s := rfl

theorem mem_insertSorted (x s : String) : ∀ l : List String,
    x ∈ insertSorted s l ↔ x = s ∨ x ∈ l := by
  intro l
  induction l with
  | nil => simp [insertSorted]
  | cons t ts ih =>
    by_cases h1 : charListLt s.data t.data
    · simp [insertSorted, h1]
    · by_cases h2 : s = t
      · subst h2
        rw [show insertSorted s (s :: ts) = s :: ts by simp [insertSorted, h1]]
        simp only [List.mem_cons]
        tauto
      · rw [show insertSorted s (t :: ts) = t :: insertSorted s ts by
            simp [insertSorted, h1, h2]]
        simp only [List.mem_cons, ih]
        tauto

theorem mem_sortDedup (x : String) : ∀ l : List String, x ∈ sortDedup l ↔ x ∈ l := by
  intro l
  induction l with
  | nil => simp [sortDedup]
  | cons s ts ih =>
    show x ∈ insertSorted s (sortDedup ts) ↔ _
    rw [mem_insertSorted, ih]
    simp

theorem mem_extract_slots (m : String) (text : String) :
    m ∈ _extract_slots text ↔ m.data ∈ scanSlots text.data := by
  unfold _extract_slots
  rw [mem_sortDedup]
  constructor
  · intro h
    obtain ⟨w, hw, hmk⟩ := List.mem_map.mp h
    subst hmk
    exact hw
  · intro h
    exact List.mem_map.mpr ⟨m.data, h, strMk_data m⟩

theorem normalize_channel_cases (channel : String) :
    _normalize_channel channel = "PUSH" ∨ _normalize_channel channel = "SMS" ∨
    _normalize_channel channel = "KAKAO" ∨ _normalize_channel channel = "EMAIL" := by
  unfold _normalize_channel
  by_cases h : pyUpper (pyStrip channel) = "PUSH" ∨ pyUpper (pyStrip channel) = "SMS" ∨
      pyUpper (pyStrip channel) = "KAKAO" ∨ pyUpper (pyStrip channel) = "EMAIL"
  · rw [if_pos h]
    exact h
  · rw [if_neg h]
    exact Or.inl rfl

/-! ### Helper lemmas about the embedded operations -/

theorem mem_placeholders (m text : String) :
    m ∈ _slot_placeholders_in_text text ↔ m.data ∈ scanSlots text.data := by
  unfold _slot_placeholders_in_text
  constructor
  · intro h
    obtain ⟨w, hw, hmk⟩ := List.mem_map.mp h
    subst hmk
    exact hw
  · intro h
    exact List.mem_map.mpr ⟨m.data, h, strMk_data m⟩

theorem contains_eq_mem (l : List String) (a : String) : l.contains a = true ↔ a ∈ l := by
  simp

/-- Completeness of the repair step: after appending the missing required
placeholders and stripping, no required slot is missing (provided the
required names are regex-matchable: nonempty words). -/
theorem repairBody_complete (body0 : String) (required : List String)
    (hreq : ∀ r ∈ required, r.data ≠ [] ∧ r.data.all isWordChar = true) :
    _validate_candidate_body (repairBody body0 required) required = [] := by
  unfold repairBody
  by_cases hm : _validate_candidate_body body0 required = []
  · rw [if_pos hm]
    exact hm
  · rw [if_neg hm]
    set missing := _validate_candidate_body body0 required with hmiss
    set J := joinNLChars ((missing.map String.data).map phChars) with hJ
    set X := body0.data ++ '\n' :: J with hX
    have hnl : ("\n" : String).data = ['\n'] := rfl
    have hdata : (pyStrip (body0 ++ "\n" ++ String.mk J)).data = pyStripChars X := by
      show pyStripChars (body0 ++ "\n" ++ String.mk J).data = pyStripChars X
      rw [String.data_append, String.data_append, hnl]
      rw [hX, List.append_assoc, List.singleton_append]
    have hmapne : missing.map String.data ≠ [] := by
      intro hcon
      exact hm (List.map_eq_nil_iff.mp hcon)
    obtain ⟨pre, hpre⟩ := joinNLChars_ph_ends (missing.map String.data) hmapne
    have hscan : scanSlots (pyStripChars X) = scanSlots X := by
      refine scanSlots_pyStrip_ends_close X (body0.data ++ '\n' :: pre) ?_
      rw [hX, hJ, hpre]
      simp
    unfold _validate_candidate_body
    rw [List.filter_eq_nil_iff]
    intro r hr
    suffices hS :
        (_slot_placeholders_in_text (pyStrip (body0 ++ "\n" ++ String.mk J))).contains r = true by
      rw [hS]
      decide
    rw [contains_eq_mem, mem_placeholders, hdata, hscan]
    obtain ⟨hne, hword⟩ := hreq r hr
    by_cases hrm : r ∈ missing
    · -- the appended text contains the braced name literally
      have hrd : r.data ∈ missing.map String.data := List.mem_map_of_mem String.data hrm
      obtain ⟨s, t, hst⟩ := occurrence_in_joinNL (missing.map String.data) r.data hrd
      have hXeq : X = (body0.data ++ '\n' :: s) ++ '{' :: (r.data ++ '}' :: t) := by
        rw [hX, hJ, hst]
        simp
      rw [hXeq]
      exact mem_scanSlots_of_occurrence (body0.data ++ '\n' :: s).length _ _ _ le_rfl hne hword
    · -- the slot was already present in the body and survives the append
      have hcont : ((_slot_placeholders_in_text body0).contains r) = true := by
        by_contra hc
        have : r ∈ missing := by
          rw [hmiss]
          unfold _validate_candidate_body
          refine List.mem_filter.mpr ⟨hr, ?_⟩
          simp only [Bool.not_eq_true] at hc
          rw [hc]
          decide
        exact hrm this
      have hmem0 : r.data ∈ scanSlots body0.data := by
        rw [← mem_placeholders, ← contains_eq_mem]
        exact hcont
      rw [hX]
      exact mem_scanSlots_append body0.data.length _ ('\n' :: J) _ le_rfl hmem0

/-- Every channel's required-slot list consists of regex-matchable names. -/
theorem requiredFor_wellformed (channel : String) :
    ∀ r ∈ requiredFor (_normalize_channel channel),
      r.data ≠ [] ∧ r.data.all isWordChar = true := by
  rcases normalize_channel_cases channel with h | h | h | h <;> rw [h] <;> decide

theorem mem_mapRawLoop (channelN tone_id : String) (required : List String) (notes : TANotes)
    (default_subject : String) :
    ∀ (raws : List RawCand) (idx : Nat) (c : Candidate),
      c ∈ mapRawLoop channelN tone_id required notes default_subject idx raws →
      ∃ i rc, c = mappedCandidate channelN tone_id required notes default_subject i rc := by
  intro raws
  induction raws with
  | nil => intro idx c h; simp [mapRawLoop] at h
  | cons rc rest ih =>
    intro idx c h
    rcases List.mem_cons.mp h with h1 | h1
    · exact ⟨idx, rc, h1⟩
    · exact ih (idx + 1) c h1

theorem mapRawLoop_ne_nil (channelN tone_id : String) (required : List String) (notes : TANotes)
    (default_subject : String) (idx : Nat) (rc : RawCand) (rest : List RawCand) :
    mapRawLoop channelN tone_id required notes default_subject idx (rc :: rest) ≠ [] := by
  simp [mapRawLoop]

theorem mapM_age_ok (y : Int) : ∀ (l : List String),
    (∀ a ∈ l, (_age_group_to_birth_year_range y a).isOk = true) →
    ∃ rs, l.mapM (_age_group_to_birth_year_range y) = Except.ok rs := by
  intro l
  induction l with
  | nil => intro _; exact ⟨[], rfl⟩
  | cons a rest ih =>
    intro h
    have ha := h a (by simp)
    obtain ⟨r, hr⟩ : ∃ r, _age_group_to_birth_year_range y a = Except.ok r := by
      cases hx : _age_group_to_birth_year_range y a with
      | ok r => exact ⟨r, rfl⟩
      | error e => rw [hx] at ha; simp [Except.isOk, Except.toBool] at ha
    obtain ⟨rs, hrs⟩ := ih (fun b hb => h b (by simp [hb]))
    refine ⟨r :: rs, ?_⟩
    simp only [List.mapM_cons, hr, hrs]
    rfl

theorem scanSlots_eq_parse_filterMap :
    ∀ (n : Nat) (l : List Char), l.length ≤ n →
    scanSlots l = (parseSegs l).filterMap
      (fun s => match s with | Seg.slot w => some w | Seg.lit _ => none) := by
  intro n
  induction n with
  | zero =>
    intro l hn
    have : l = [] := List.length_eq_zero.mp (Nat.le_zero.mp hn)
    subst this
    rfl
  | succ n ih =>
    intro l hn
    cases l with
    | nil => rfl
    | cons c cs =>
      simp only [List.length_cons, Nat.succ_le_succ_iff] at hn
      rw [scanSlots_cons, parseSegs_cons]
      by_cases hs : slotHit c cs
      · have hlt := slotHit_tail_len hs
        rw [if_pos hs, if_pos hs]
        simp only [List.filterMap_cons]
        rw [ih _ (by omega)]
      · rw [if_neg hs, if_neg hs]
        simp only [List.filterMap_cons]
        rw [ih cs hn]

/-- C10: `_render` replaces each placeholder occurrence whose name has an
entry in the value mapping with the string form of that value, leaves every
placeholder whose name is absent verbatim (braces included), and never
raises: the output equals the segment-wise rendering of the parsed body,
the parse reconstructs the body exactly, and when no placeholder name of
the body is mapped the render is the identity. -/
theorem C10_render_contract (text : String) (vals : List (String × String)) :
    _render text vals = String.mk (((parseSegs text.data).map (renderSeg vals)).flatten) ∧
    ((parseSegs text.data).map segText).flatten = text.data ∧
    ((∀ m ∈ scanSlots text.data, vals.lookup (String.mk m) = none) → _render text vals = text) := by
  refine ⟨?_, ?_, ?_⟩
  · show String.mk (renderChars vals text.data) = _
    rw [renderChars_eq_segs vals text.data.length text.data le_rfl]
  · exact parseSegs_reconstruct text.data.length text.data le_rfl
  · intro hnone
    show String.mk (renderChars vals text.data) = text
    rw [renderChars_eq_segs vals text.data.length text.data le_rfl]
    have hmap : (parseSegs text.data).map (renderSeg vals) = (parseSegs text.data).map segText := by
      apply List.map_congr_left
      intro seg hseg
      cases seg with
      | lit c => rfl
      | slot w =>
        have hw : w ∈ scanSlots text.data := by
          rw [scanSlots_eq_parse_filterMap text.data.length text.data le_rfl]
          exact List.mem_filterMap.mpr ⟨Seg.slot w, hseg, rfl⟩
        show replValue vals w = _
        unfold replValue
        rw [hnone w hw]
        rfl
    rw [hmap, parseSegs_reconstruct text.data.length text.data le_rfl]

/-- Witness for C10: a body whose placeholders are all unmapped is returned
verbatim. -/
theorem C10_render_contract_witness :
    _render "안내 {coupon_code} 확인 {cta}" [("deep_link", "url")] =
      "안내 {coupon_code} 확인 {cta}" :=
  (C10_render_contract "안내 {coupon_code} 확인 {cta}" [("deep_link", "url")]).2.2 (by decide)

/-- C4 (amended): after COMPLIANCE the orchestrator proceeds to EXECUTE if
and only if the in-memory state holds a truthy `selected_template`; the
router never consults the handoff store, so a run whose store holds a
SELECTED_TEMPLATE handoff but whose state does not ends the invocation. -/
theorem C4_route_reads_state_only (s : CRMState) :
    (route_after_compliance s = some NodeId.stage_execute ↔ pyTruthy s.selected_template = true) ∧
    (route_after_compliance s = none ↔ pyTruthy s.selected_template = false) := by
  unfold route_after_compliance
  by_cases h : pyTruthy s.selected_template = true
  · simp [h]
  · simp only [Bool.not_eq_true] at h
    simp [h]

/-- Counterexample for C4 as stated: the store holds a SELECTED_TEMPLATE
handoff for the run, yet the router ends the invocation because the
in-memory state has no selected template. -/
theorem C4_counterexample :
    (latestHandoff
        [{ run_id := "r1", stage := "SELECTED_TEMPLATE", payload_json := "tmpl", created_at := 5 }]
        "r1" ST_SELECTED_TEMPLATE).isSome = true ∧
    route_after_compliance { run_id := "r1" } = none := by decide

/-- C8 (amended): the target-query builder maps a band label parsing as `B`
with suffix `대` to the birth-year interval `[thisYear-(B+9), thisYear-B]`
and an open-ended label `B대+` to an interval with no lower bound and upper
bound `thisYear-B` (so `20대` gives `[thisYear-29, thisYear-20]` and
`50대+` an open lower bound); the audience-preview query instead uses a
hard-coded table that agrees on `10대`…`40대` but maps both `50대+` and
`50대` to the bounded interval `[1900, thisYear-50]` and drops every other
band. -/
theorem C8_age_band_mapping (y : Int) :
    (∀ (label : String) (base : Int), pyEndsWith label "대+" = false →
        pyInt (pyReplace label "대" "") = Except.ok base →
        _age_group_to_birth_year_range y label =
          Except.ok (some (y - (base + 9)), some (y - base))) ∧
    (∀ (label : String) (base : Int), pyEndsWith label "대+" = true →
        pyInt (pyReplace label "대+" "") = Except.ok base →
        _age_group_to_birth_year_range y label = Except.ok (none, some (y - base))) ∧
    _age_group_to_birth_year_range y "20대" = Except.ok (some (y - 29), some (y - 20)) ∧
    _age_group_to_birth_year_range y "50대+" = Except.ok (none, some (y - 50)) ∧
    previewBandRange y "10대" = some (y - 19, y - 10) ∧
    previewBandRange y "20대" = some (y - 29, y - 20) ∧
    previewBandRange y "30대" = some (y - 39, y - 30) ∧
    previewBandRange y "40대" = some (y - 49, y - 40) ∧
    previewBandRange y "50대+" = some (1900, y - 50) ∧
    previewBandRange y "50대" = some (1900, y - 50) ∧
    previewBandRange y "60대" = none ∧
    previewBandRange y "60대+" = none := by
  refine ⟨?_, ?_, ?_, ?_, ?_, ?_, ?_, ?_, ?_, ?_, ?_, ?_⟩
  · intro label base h1 h2
    unfold _age_group_to_birth_year_range
    rw [h1]
    simp only [Bool.false_eq_true, if_false, h2]
  · intro label base h1 h2
    unfold _age_group_to_birth_year_range
    rw [h1]
    simp only [if_true, h2]
  · unfold _age_group_to_birth_year_range
    rw [show pyEndsWith "20대" "대+" = false from by decide]
    rw [show pyInt (pyReplace "20대" "대" "") = Except.ok (20 : Int) from by decide]
    norm_num
  · unfold _age_group_to_birth_year_range
    rw [show pyEndsWith "50대+" "대+" = true from by decide]
    rw [show pyInt (pyReplace "50대+" "대+" "") = Except.ok (50 : Int) from by decide]
    norm_num
  · unfold previewBandRange
    rw [show pyStrip "10대" = "10대" from by decide, if_pos rfl]
  · unfold previewBandRange
    rw [show pyStrip "20대" = "20대" from by decide, if_neg (by decide), if_pos rfl]
  · unfold previewBandRange
    rw [show pyStrip "30대" = "30대" from by decide, if_neg (by decide), if_neg (by decide),
      if_pos rfl]
  · unfold previewBandRange
    rw [show pyStrip "40대" = "40대" from by decide, if_neg (by decide), if_neg (by decide),
      if_neg (by decide), if_pos rfl]
  · unfold previewBandRange
    rw [show pyStrip "50대+" = "50대+" from by decide, if_neg (by decide), if_neg (by decide),
      if_neg (by decide), if_neg (by decide), if_pos (by decide)]
  · unfold previewBandRange
    rw [show pyStrip "50대" = "50대" from by decide, if_neg (by decide), if_neg (by decide),
      if_neg (by decide), if_neg (by decide), if_pos (by decide)]
  · unfold previewBandRange
    rw [show pyStrip "60대" = "60대" from by decide, if_neg (by decide), if_neg (by decide),
      if_neg (by decide), if_neg (by decide), if_neg (by decide)]
  · unfold previewBandRange
    rw [show pyStrip "60대+" = "60대+" from by decide, if_neg (by decide), if_neg (by decide),
      if_neg (by decide), if_neg (by decide), if_neg (by decide)]

/-- Witness for C8 at the band `30대` and year 2026. -/
theorem C8_age_band_mapping_witness :
    _age_group_to_birth_year_range 2026 "30대" = Except.ok (some 1987, some 1996) := by
  have h := (C8_age_band_mapping 2026).1 "30대" 30 (by decide) (by decide)
  norm_num at h
  exact h

/-- Counterexample for C8 as stated: at year 2026 the builder maps `50대+`
to an interval with an open lower bound, but the audience-preview query
maps the same label (and the plain `50대` label) to the bounded interval
`[1900, 1976]`, so the preview does not apply the same mapping. -/
theorem C8_counterexample :
    _age_group_to_birth_year_range 2026 "50대+" = Except.ok (none, some 1976) ∧
    previewBandRange 2026 "50대+" = some (1900, 1976) ∧
    _age_group_to_birth_year_range 2026 "50대" = Except.ok (some 1967, some 1976) ∧
    previewBandRange 2026 "50대" = some (1900, 1976) := by decide

/-- C9 (amended): for every schema-introspection outcome and every target
input whose age-band labels all parse, `build_target` returns a
`TargetQuery` without raising; when introspection of the audience or
feature table fails the detected join-key pair is `(None, None)`, and when
the feature-table introspection fails the detected feature-column map is
empty, so the skin filters cannot be resolved into columns — the build
never fails because of missing columns.  (As stated over *every* target
input the claim is false: a malformed band label raises `ValueError`, see
the counterexample.) -/
theorem C9_build_target_degrades (y : Int) (intr : Introspector) (ti : TargetInput)
    (channel tone : String)
    (hages : ∀ a ∈ ti.age_group, (_age_group_to_birth_year_range y a).isOk = true) :
    ∃ tr, build_target y intr ti channel tone = Except.ok tr ∧
      (((intr "users").isOk = false ∨ (intr "user_features").isOk = false) →
        tr.target_query.users_key = none ∧ tr.target_query.features_key = none) ∧
      ((intr "user_features").isOk = false → tr.target_query.feature_cols = []) := by
  obtain ⟨rs, hrs⟩ := mapM_age_ok y ti.age_group hages
  unfold build_target
  rw [hrs]
  refine ⟨_, rfl, ?_, ?_⟩
  · intro h
    show (_detect_join_keys intr).1 = none ∧ (_detect_join_keys intr).2 = none
    unfold _detect_join_keys
    cases hu : intr "users" with
    | error e => exact ⟨rfl, rfl⟩
    | ok u =>
      cases hf : intr "user_features" with
      | error e => exact ⟨rfl, rfl⟩
      | ok f =>
        rw [hu, hf] at h
        rcases h with h | h <;> simp [Except.isOk, Except.toBool] at h
  · intro h
    cases hf : intr "user_features" with
    | error e => rfl
    | ok f =>
      rw [hf] at h
      simp [Except.isOk, Except.toBool] at h

/-- Witness for C9: with a schema collaborator that always fails, the build
still succeeds for a well-formed target input. -/
theorem C9_build_target_degrades_witness :
    (build_target 2026 (fun _ => Except.error "SHOW COLUMNS failed")
      { age_group := ["20대"] } "PUSH" "amoremall").isOk = true := by
  obtain ⟨tr, htr, -, -⟩ := C9_build_target_degrades 2026
    (fun _ => Except.error "SHOW COLUMNS failed") { age_group := ["20대"] } "PUSH" "amoremall"
    (by decide)
  rw [htr]
  rfl

/-- Counterexample for C9 as stated: `build_target` raises `ValueError`
(here: the embedded `int()` failure) on the target input whose age-band
list is `["대"]`, even though introspection succeeds — so it does not
return a `TargetQuery` for *every* target input. -/
theorem C9_counterexample :
    build_target 2026 (fun _ => Except.ok ["user_id"]) { age_group := ["대"] } "SMS" "amoremall" =
      Except.error "invalid literal for int(): " := by decide

theorem validateOne_facts (c : Candidate) :
    (validateOne c).template_id = c.template_id ∧
    (validateOne c).found_slots = _extract_slots c.body_with_slots ∧
    (∀ m ∈ missingSlots c, m ∉ (validateOne c).found_slots) ∧
    (missingSlots c ≠ [] →
      (validateOne c).status = CStatus.FAIL ∧
      missingReason (missingSlots c) ∈ (validateOne c).reasons) ∧
    (bannedHit c.body_with_slots = true →
      (validateOne c).status = CStatus.FAIL ∧ bannedReason ∈ (validateOne c).reasons) := by
  have hexcl : ∀ m ∈ missingSlots c, m ∉ foundSlotsOf c := by
    intro m hm
    have := List.mem_filter.mp hm
    intro hmem
    have hc := (contains_eq_mem (foundSlotsOf c) m).mpr hmem
    rw [hc] at this
    simp at this
  simp only [validateOne]
  by_cases h1 : missingSlots c = [] <;>
    by_cases h2 : bannedHit c.body_with_slots = true <;>
      by_cases h3 : 220 < c.body_with_slots.length <;>
        simp_all [if_pos, if_neg, foundSlotsOf]

/-- C6: rule evaluation in `validate_candidates` is monotonic in the fixed
sequence: the final status is FAIL exactly when a FAIL rule (missing
required slots, banned phrase) fired — later rules only append reasons and
never downgrade — and the length rule sets WARN only when no FAIL rule
fired; the length reason is always recorded for an over-long body. -/
theorem C6_status_monotonic (c : Candidate) :
    ((validateOne c).status = CStatus.FAIL ↔
      (missingSlots c ≠ [] ∨ bannedHit c.body_with_slots = true)) ∧
    ((validateOne c).status = CStatus.WARN ↔
      (missingSlots c = [] ∧ bannedHit c.body_with_slots = false ∧
        220 < c.body_with_slots.length)) ∧
    (220 < c.body_with_slots.length → lengthReason ∈ (validateOne c).reasons) := by
  simp only [validateOne]
  by_cases h1 : missingSlots c = [] <;>
    by_cases h2 : bannedHit c.body_with_slots = true <;>
      by_cases h3 : 220 < c.body_with_slots.length <;>
        simp_all [if_pos, if_neg]

set_option maxRecDepth 4000 in
/-- Witness for C6 at a body over the 220-character threshold. -/
theorem C6_status_monotonic_witness :
    lengthReason ∈
      (validateOne { body_with_slots := String.mk (List.replicate 221 'a') }).reasons :=
  (C6_status_monotonic { body_with_slots := String.mk (List.replicate 221 'a') }).2.2 (by decide)

/-- C7: `validate_candidates` returns exactly one result per candidate in
input order; a candidate missing a required slot is FAILed with a reason
naming the missing slots and `found_slots` equal to the placeholder set of
the body (hence excluding the missing names); a banned phrase FAILs the
candidate with the class reason. -/
theorem C7_validator_contract (cands : List Candidate) :
    (validate_candidates cands).length = cands.length ∧
    ∀ (i : Nat) (h1 : i < cands.length) (h2 : i < (validate_candidates cands).length),
      ((validate_candidates cands).get ⟨i, h2⟩).template_id = (cands.get ⟨i, h1⟩).template_id ∧
      ((validate_candidates cands).get ⟨i, h2⟩).found_slots =
        _extract_slots (cands.get ⟨i, h1⟩).body_with_slots ∧
      (∀ m ∈ missingSlots (cands.get ⟨i, h1⟩),
        m ∉ ((validate_candidates cands).get ⟨i, h2⟩).found_slots) ∧
      (missingSlots (cands.get ⟨i, h1⟩) ≠ [] →
        ((validate_candidates cands).get ⟨i, h2⟩).status = CStatus.FAIL ∧
        missingReason (missingSlots (cands.get ⟨i, h1⟩)) ∈
          ((validate_candidates cands).get ⟨i, h2⟩).reasons) ∧
      (bannedHit (cands.get ⟨i, h1⟩).body_with_slots = true →
        ((validate_candidates cands).get ⟨i, h2⟩).status = CStatus.FAIL ∧
        bannedReason ∈ ((validate_candidates cands).get ⟨i, h2⟩).reasons) := by
  refine ⟨by simp [validate_candidates], ?_⟩
  intro i h1 h2
  have hget : (validate_candidates cands).get ⟨i, h2⟩ = validateOne (cands.get ⟨i, h1⟩) := by
    unfold validate_candidates
    simp [List.get_eq_getElem, List.getElem_map]
  rw [hget]
  exact validateOne_facts (cands.get ⟨i, h1⟩)

/-- Witness for C7: a PUSH candidate whose body lacks all required slots is
FAILed and its `found_slots` excludes the missing names. -/
theorem C7_validator_contract_witness :
    ((validate_candidates
        [{ template_id := "T1", required := ["customer_name", "cta"],
           body_with_slots := "본문에 슬롯 없음" }]).get ⟨0, by decide⟩).status = CStatus.FAIL :=
  (((C7_validator_contract
      [{ template_id := "T1", required := ["customer_name", "cta"],
         body_with_slots := "본문에 슬롯 없음" }]).2 0 (by decide) (by decide)).2.2.2.1
    (by decide)).1

theorem inlineValidateOne_facts (c : Candidate) :
    (inlineValidateOne c).template_id = c.template_id ∧
    ((inlineValidateOne c).status = CStatus.FAIL ↔
      (pyContains "100% 효과" c.body_with_slots || pyContains "완치" c.body_with_slots) = true) ∧
    ((inlineValidateOne c).status = CStatus.FAIL →
      (inlineValidateOne c).reasons = [bannedReason]) ∧
    ((pyContains "100% 효과" c.body_with_slots || pyContains "완치" c.body_with_slots) = false →
      (inlineValidateOne c).status = CStatus.PASS ∧ (inlineValidateOne c).reasons = []) := by
  cases hv : (pyContains "100% 효과" c.body_with_slots ||
      pyContains "완치" c.body_with_slots) with
  | true =>
    have hstat : (inlineValidateOne c).status = CStatus.FAIL := by
      simp [inlineValidateOne, hv]
    have hreas : (inlineValidateOne c).reasons = [bannedReason] := by
      simp [inlineValidateOne, hv]
    refine ⟨rfl, by simp [hstat], fun _ => hreas, ?_⟩
    intro hfalse
    cases hfalse
  | false =>
    have hstat : (inlineValidateOne c).status = CStatus.PASS := by
      simp [inlineValidateOne, hv]
    have hreas : (inlineValidateOne c).reasons = [] := by
      simp [inlineValidateOne, hv]
    refine ⟨rfl, by simp [hstat], ?_, fun _ => ⟨hstat, hreas⟩⟩
    intro hfail
    rw [hstat] at hfail
    cases hfail

/-- C3: the import `from crm_agent.agents.compliance import
validate_candidates` cannot resolve (the agents package only contains
`compilance`), so `node_compliance` always runs its inline check: a
candidate is FAILed with the single reason iff its body contains the
literal substring "100% 효과" or "완치", and is PASSed with no reasons
otherwise; required-slot coverage and body length never influence the
persisted status. -/
theorem C3_inline_compliance_always (cands : List Candidate) :
    complianceImportOk = false ∧
    nodeComplianceCompute cands = ComplianceOut.basic (inlineValidate cands) ∧
    (inlineValidate cands).length = cands.length ∧
    ∀ (i : Nat) (h1 : i < cands.length) (h2 : i < (inlineValidate cands).length),
      ((inlineValidate cands).get ⟨i, h2⟩).template_id = (cands.get ⟨i, h1⟩).template_id ∧
      (((inlineValidate cands).get ⟨i, h2⟩).status = CStatus.FAIL ↔
        (pyContains "100% 효과" (cands.get ⟨i, h1⟩).body_with_slots ||
          pyContains "완치" (cands.get ⟨i, h1⟩).body_with_slots) = true) ∧
      (((inlineValidate cands).get ⟨i, h2⟩).status = CStatus.FAIL →
        ((inlineValidate cands).get ⟨i, h2⟩).reasons = [bannedReason]) ∧
      ((pyContains "100% 효과" (cands.get ⟨i, h1⟩).body_with_slots ||
          pyContains "완치" (cands.get ⟨i, h1⟩).body_with_slots) = false →
        ((inlineValidate cands).get ⟨i, h2⟩).status = CStatus.PASS ∧
        ((inlineValidate cands).get ⟨i, h2⟩).reasons = []) := by
  refine ⟨by decide, ?_, by simp [inlineValidate], ?_⟩
  · unfold nodeComplianceCompute
    rw [show complianceImportOk = false from by decide]
    rfl
  · intro i h1 h2
    have hget : (inlineValidate cands).get ⟨i, h2⟩ = inlineValidateOne (cands.get ⟨i, h1⟩) := by
      unfold inlineValidate
      simp [List.get_eq_getElem, List.getElem_map]
    rw [hget]
    exact inlineValidateOne_facts (cands.get ⟨i, h1⟩)

/-- Witness for C3: a body carrying a banned phrase is FAILed by the inline
check with the single class reason. -/
theorem C3_inline_compliance_always_witness :
    ((inlineValidate [{ template_id := "T1", body_with_slots := "이 제품은 100% 효과" }]).get
      ⟨0, by decide⟩).reasons = [bannedReason] :=
  (((C3_inline_compliance_always
      [{ template_id := "T1", body_with_slots := "이 제품은 100% 효과" }]).2.2.2 0 (by decide)
    (by decide)).2.2.1) (by decide)

/-- C2 (amended): every candidate produced via the LLM success path of
`generate_template_candidates` has every name of its `slot_schema.required`
present as a placeholder in its final body: missing names are repaired by
appending the placeholders to the body rather than discarding the
candidate, so `missing_required` on the final body is empty.  (Fallback
candidates are returned without repair and can miss required slots — see
the counterexample.) -/
theorem C2_llm_path_required_covered (brief : Brief) (channel tone rag_context : String)
    (k : Int) (raws : List RawCand) (toneGuideMd normalizedPromptText : String)
    (hraws : raws ≠ []) :
    ∀ c ∈ generate_template_candidates_llm_ok brief channel tone rag_context k raws
        toneGuideMd normalizedPromptText,
      _validate_candidate_body c.body_with_slots c.required = [] ∧
      c.required = requiredFor (_normalize_channel channel) := by
  intro c hc
  simp only [generate_template_candidates_llm_ok] at hc
  rw [if_neg hraws] at hc
  have hne : mapRawLoop (_normalize_channel channel)
      (pyLower (pyStrip (if tone = "" then "amoremall" else tone)))
      (requiredFor (_normalize_channel channel))
      { campaign_goal := if pyStrip brief.goal = "" then pyStrip brief.campaign_goal
          else pyStrip brief.goal,
        campaign_text_hint := pyTake 300 normalizedPromptText,
        rag_evidence_hint := pyTake 500 (pyTake 2500 (pyStrip rag_context)),
        brand_tone_id := pyLower (pyStrip (if tone = "" then "amoremall" else tone)),
        brand_tone_guide_snippet := if toneGuideMd = "" then "" else pyTake 500 toneGuideMd,
        principle := "Template agent must not decide product/offer. Keep as slots.",
        llm := true }
      "{campaign_goal} 안내 | {product_name} {offer}" 1 (raws.take (max 1 k).toNat) ≠ [] := by
    cases raws with
    | nil => exact absurd rfl hraws
    | cons r0 rest =>
      obtain ⟨m, hm⟩ : ∃ m, (max 1 k).toNat = m + 1 := ⟨(max 1 k).toNat - 1, by omega⟩
      rw [hm, List.take_succ_cons]
      exact mapRawLoop_ne_nil _ _ _ _ _ _ _ _
  rw [if_neg hne] at hc
  have hmem := List.mem_of_mem_take hc
  obtain ⟨i, rc, hrc⟩ := mem_mapRawLoop _ _ _ _ _ _ _ _ hmem
  subst hrc
  refine ⟨?_, rfl⟩
  show _validate_candidate_body
    (repairBody (pyStrip rc.body) (requiredFor (_normalize_channel channel)))
    (requiredFor (_normalize_channel channel)) = []
  exact repairBody_complete (pyStrip rc.body) _ (requiredFor_wellformed channel)

/-- Witness for C2: a raw LLM candidate missing most required slots is
repaired so that nothing required is missing from the final body. -/
theorem C2_llm_path_required_covered_witness :
    _validate_candidate_body
      ((generate_template_candidates_llm_ok { goal := "g" } "PUSH" "amoremall" "" 4
          [{ title := "t", body := "짧은 본문 {offer}" }] "" "").headD {}).body_with_slots
      ((generate_template_candidates_llm_ok { goal := "g" } "PUSH" "amoremall" "" 4
          [{ title := "t", body := "짧은 본문 {offer}" }] "" "").headD {}).required = [] :=
  (C2_llm_path_required_covered { goal := "g" } "PUSH" "amoremall" "" 4
    [{ title := "t", body := "짧은 본문 {offer}" }] "" "" (by decide) _ (by decide)).1

/-- Counterexample for C2 as stated: the first candidate returned by the
fallback path (PUSH, amoremall, a simulated LLM failure) lists
`customer_name` in `slot_schema.required`, but its body has no such
placeholder and no repair is applied, so `missing_required` is nonempty. -/
theorem C2_counterexample :
    ((generate_template_candidates_llm_error { goal := "행사" } "PUSH" "amoremall" "" 2 "err2"
        "" "").map
      (fun c => _validate_candidate_body c.body_with_slots c.required)).headD [] =
      ["customer_name"] := by decide

theorem openers_cases (t : String) :
    _fallback_openers_ctas_by_brand t =
      (["고객님, 오늘은 산뜻한 데일리 루틴으로 추천드려요 🍃",
        "가볍게 루틴에 더해보기 좋은 {product_name} 소식이에요 🍃"],
       ["앱에서 확인하기", "가볍게 보러가기"]) ∨
    _fallback_openers_ctas_by_brand t =
      (["고객님, 회원 전용 혜택 안내드려요.", "고객님, 지금 앱에서 확인해 보세요."],
       ["지금 확인하기", "자세히 보기"]) := by
  unfold _fallback_openers_ctas_by_brand
  by_cases h : pyLower (pyStrip t) = "innisfree"
  · left
    rw [if_pos h]
  · right
    rw [if_neg h]

set_option maxRecDepth 100000 in
/-- C1 (amended): when the LLM collaborator raises inside
`generate_template_candidates`, the function returns the deterministic
fallback batch of at most 4 (and at least 1) canned templates for the
normalized channel/tone, each candidate's notes tagged with the triggering
error; for channel SMS every fallback body contains the `{unsubscribe}`
placeholder and carries no banned phrase, so the inline banned-phrase check
used by the pipeline marks every fallback candidate PASS — but the fallback
bodies do NOT all satisfy required-slot coverage (T001–T003 lack
`{customer_name}`), so the full validator of `compilance.py` marks exactly
the first three candidates FAIL and only T004 PASS. -/
theorem C1_fallback_on_llm_error (brief : Brief) (tone rag_context : String) (k : Int)
    (errRepr toneGuideMd normalizedPromptText : String) :
    1 ≤ (generate_template_candidates_llm_error brief "SMS" tone rag_context k errRepr
        toneGuideMd normalizedPromptText).length ∧
    (generate_template_candidates_llm_error brief "SMS" tone rag_context k errRepr
        toneGuideMd normalizedPromptText).length ≤ 4 ∧
    (∀ c ∈ generate_template_candidates_llm_error brief "SMS" tone rag_context k errRepr
        toneGuideMd normalizedPromptText,
      c.notes.llm_error = some errRepr ∧
      pyContains "{unsubscribe}" c.body_with_slots = true ∧
      (inlineValidateOne c).status = CStatus.PASS) ∧
    (validate_candidates (generate_template_candidates_llm_error brief "SMS" tone rag_context k
        errRepr toneGuideMd normalizedPromptText)).map ComplianceResult.status =
      [CStatus.FAIL, CStatus.FAIL, CStatus.FAIL, CStatus.PASS].take (max 1 (min k 4)).toNat := by
  simp only [generate_template_candidates_llm_error, _fallback_candidates]
  rcases openers_cases (pyLower (pyStrip
      (if pyLower (pyStrip (if tone = "" then "amoremall" else tone)) = "" then "amoremall"
       else pyLower (pyStrip (if tone = "" then "amoremall" else tone))))) with hoc | hoc <;>
  (rw [hoc]
   refine ⟨?_, ?_, ?_, ?_⟩
   · simp only [List.length_map, List.length_take, List.length_cons, List.length_nil]
     omega
   · simp only [List.length_map, List.length_take, List.length_cons, List.length_nil]
     omega
   · intro c hc
     obtain ⟨c0, hc0, rfl⟩ := List.mem_map.mp hc
     have hc1 := List.mem_of_mem_take hc0
     refine ⟨rfl, ?_, ?_⟩ <;>
       (simp only [List.mem_cons, List.not_mem_nil, or_false] at hc1
        rcases hc1 with rfl | rfl | rfl | rfl <;> rfl)
   · simp only [validate_candidates, List.map_map, List.map_take]
     congr 1)

set_option maxRecDepth 100000 in
/-- Witness for C1 at the end-to-end scenario (SMS, amoremall, simulated
LLM failure): the first fallback candidate is tagged with the error. -/
theorem C1_fallback_on_llm_error_witness :
    ((generate_template_candidates_llm_error { goal := "연말 쿠션 프로모션", campaign_text := "" }
        "SMS" "amoremall" "" 4 "RuntimeError" "" "").headD {}).notes.llm_error =
      some "RuntimeError" :=
  ((C1_fallback_on_llm_error { goal := "연말 쿠션 프로모션", campaign_text := "" } "amoremall" ""
      4 "RuntimeError" "" "").2.2.1
    ((generate_template_candidates_llm_error { goal := "연말 쿠션 프로모션", campaign_text := "" }
        "SMS" "amoremall" "" 4 "RuntimeError" "" "").headD {})
    (by decide)).1

set_option maxRecDepth 100000 in
/-- Counterexample for C1 as stated: in the spec's own end-to-end scenario
(SMS, amoremall, simulated LLM failure, k = 4) the first fallback candidate
is missing the required slot `customer_name`, and the compliance validator
of `compilance.py` marks the first three fallback candidates FAIL — they do
not all satisfy required-slot coverage nor all receive PASS. -/
theorem C1_counterexample :
    ((generate_template_candidates_llm_error { goal := "연말 쿠션 프로모션", campaign_text := "" }
        "SMS" "amoremall" "" 4 "RuntimeError" "" "").map
      (fun c => missingSlots c)).headD [] = ["customer_name"] ∧
    (validate_candidates (generate_template_candidates_llm_error
        { goal := "연말 쿠션 프로모션", campaign_text := "" } "SMS" "amoremall" "" 4 "RuntimeError"
        "" "")).map ComplianceResult.status =
      [CStatus.FAIL, CStatus.FAIL, CStatus.FAIL, CStatus.PASS] := by decide

theorem runUpdateFn_run_id (rid : String) (a b c d : Option String) (r : RunRow) :
    (runUpdateFn rid a b c d r).run_id = r.run_id := by
  unfold runUpdateFn
  by_cases h : r.run_id == rid
  · rw [if_pos h]
  · rw [if_neg h]

theorem getRun_update_run (runs : List RunRow) (rid rid2 : String) (a b c d : Option String) :
    getRun (update_run runs rid a b c d) rid2 =
      (getRun runs rid2).map (runUpdateFn rid a b c d) := by
  unfold getRun update_run
  rw [List.find?_map]
  congr 2
  funext r
  show ((runUpdateFn rid a b c d r).run_id == rid2) = (r.run_id == rid2)
  rw [runUpdateFn_run_id]

theorem runNode_state (env : NodeEnv) (n : NodeId) (w : World) (s : CRMState)
    (w2 : World) (s2 : CRMState) (h : runNode env n w s = Except.ok (w2, s2)) :
    s2.run_id = s.run_id ∧ s2.selected_template = s.selected_template := by
  cases n <;> simp only [runNode] at h <;> (repeat' split at h) <;>
    first
    | (cases h; exact ⟨rfl, rfl⟩)
    | cases h

theorem runNode_store (env : NodeEnv) (n : NodeId) (w : World) (s : CRMState)
    (w2 : World) (s2 : CRMState) (h : runNode env n w s = Except.ok (w2, s2)) :
    ∃ suf, w2.store = w.store ++ suf := by
  cases n <;> simp only [runNode, create_handoff] at h <;> (repeat' split at h) <;>
    first
    | (cases h; exact ⟨[], (List.append_nil _).symm⟩)
    | (cases h; exact ⟨_, rfl⟩)
    | cases h

theorem runNode_runs_pres (env : NodeEnv) (n : NodeId) (w : World) (s : CRMState)
    (w2 : World) (s2 : CRMState) (rid0 : String) (r : RunRow)
    (h : runNode env n w s = Except.ok (w2, s2)) (hr : getRun w.runs rid0 = some r) :
    ∃ r2, getRun w2.runs rid0 = some r2 ∧ r2.run_id = r.run_id := by
  cases n <;> simp only [runNode, create_handoff] at h <;> (repeat' split at h) <;>
    first
    | (cases h; exact ⟨r, hr, rfl⟩)
    | (cases h;
       show ∃ r2, getRun (update_run _ _ _ _ _ _) rid0 = some r2 ∧ r2.run_id = r.run_id;
       rw [getRun_update_run, hr];
       exact ⟨_, rfl, runUpdateFn_run_id _ _ _ _ _ r⟩)
    | cases h

theorem runNode_execute_step (env : NodeEnv) (w : World) (s : CRMState)
    (w2 : World) (s2 : CRMState) (rid0 : String) (r : RunRow)
    (h : runNode env NodeId.stage_execute w s = Except.ok (w2, s2))
    (hr : getRun w.runs s.run_id = some r) (hrid : s.run_id = rid0) :
    getRun w2.runs rid0 = some (runUpdateFn s.run_id none (some "S6_EXEC")
      (some (pyTake 16 env.selTemplateId)) (some env.execFinalMessage) r) := by
  subst hrid
  simp only [runNode, create_handoff] at h
  repeat' split at h
  all_goals cases h
  all_goals rw [getRun_update_run, hr]
  all_goals rfl

theorem invokeAux_cons (env : NodeEnv) (fuel : Nat) (n : NodeId) (w : World) (s : CRMState)
    (w2 : World) (s2 : CRMState) (n2 : NodeId)
    (h : runNode env n w s = Except.ok (w2, s2)) (hn : nextNode n s2 = some n2) :
    invokeAux env (fuel + 1) n w s =
      match invokeAux env fuel n2 w2 s2 with
      | Except.error e => Except.error e
      | Except.ok (tr, w3, s3) => Except.ok (n :: tr, w3, s3) := by
  simp only [invokeAux, h, hn]

theorem invokeAux_last (env : NodeEnv) (fuel : Nat) (n : NodeId) (w : World) (s : CRMState)
    (w2 : World) (s2 : CRMState)
    (h : runNode env n w s = Except.ok (w2, s2)) (hn : nextNode n s2 = none) :
    invokeAux env (fuel + 1) n w s = Except.ok ([n], w2, s2) := by
  simp only [invokeAux, h, hn]

/-- C5 (amended): `run_with_selection` persists a SELECTED_TEMPLATE handoff
and sets the run's step marker, but then re-invokes the graph at its entry
point, so the invocation re-runs LOAD_BRIEF, TARGET, RAG, CANDIDATES and
COMPLIANCE before reaching EXECUTE — it reaches EXECUTE (rather than
ending) only because the selection is placed in the initial in-memory
state; it does not resume directly at EXECUTE. -/
theorem C5_run_with_selection (env : NodeEnv) (w : World) (rid sel : String) (run : RunRow)
    (hrun : getRun w.runs rid = some run) (hsel : sel ≠ "") :
    ∃ out, run_with_selection env w rid sel = Except.ok out ∧
      out.1 = [NodeId.stage_load_brief, NodeId.stage_target, NodeId.stage_rag,
        NodeId.stage_candidates, NodeId.stage_compliance, NodeId.stage_execute] ∧
      (∃ h ∈ out.2.1.store, h.stage = ST_SELECTED_TEMPLATE ∧ h.payload_json = sel) ∧
      (getRun out.2.1.runs rid).map RunRow.step_id = some "S6_EXEC" := by
  have hbeq : (sel == "") = false := by simp [hsel]
  have hmatch : (run.run_id == rid) = true := by
    have := List.find?_some (show List.find? (fun r => r.run_id == rid) w.runs = some run
      from hrun)
    simpa using this
  have hstart : run_with_selection env w rid sel =
      invokeAux env 10 NodeId.stage_load_brief
        { create_handoff w rid ST_SELECTED_TEMPLATE sel with
          runs := update_run w.runs rid none (some "S6_EXEC")
            (some (pyTake 16 env.selTemplateId)) none }
        { run_id := rid, selected_template := some sel } := rfl
  have hg1 : getRun (update_run w.runs rid none (some "S6_EXEC")
      (some (pyTake 16 env.selTemplateId)) none) rid =
      some (runUpdateFn rid none (some "S6_EXEC") (some (pyTake 16 env.selTemplateId)) none
        run) := by
    rw [getRun_update_run, hrun]
    rfl
  -- step 1: LOAD_BRIEF
  obtain ⟨⟨w1, s1⟩, h1⟩ : ∃ p, runNode env NodeId.stage_load_brief
      { create_handoff w rid ST_SELECTED_TEMPLATE sel with
        runs := update_run w.runs rid none (some "S6_EXEC")
          (some (pyTake 16 env.selTemplateId)) none }
      { run_id := rid, selected_template := some sel } = Except.ok p := by
    simp only [runNode, hg1]
    exact ⟨_, rfl⟩
  have hst1 : s1.run_id = rid := (runNode_state _ _ _ _ _ _ h1).1
  have hsel1 : s1.selected_template = some sel := (runNode_state _ _ _ _ _ _ h1).2
  -- steps 2–5 run unconditionally
  obtain ⟨⟨w2, s2⟩, h2⟩ : ∃ p, runNode env NodeId.stage_target w1 s1 = Except.ok p := ⟨_, rfl⟩
  have hst2 : s2.run_id = rid := (runNode_state _ _ _ _ _ _ h2).1.trans hst1
  have hsel2 : s2.selected_template = some sel := (runNode_state _ _ _ _ _ _ h2).2.trans hsel1
  obtain ⟨⟨w3, s3⟩, h3⟩ : ∃ p, runNode env NodeId.stage_rag w2 s2 = Except.ok p := ⟨_, rfl⟩
  have hst3 : s3.run_id = rid := (runNode_state _ _ _ _ _ _ h3).1.trans hst2
  have hsel3 : s3.selected_template = some sel := (runNode_state _ _ _ _ _ _ h3).2.trans hsel2
  obtain ⟨⟨w4, s4⟩, h4⟩ : ∃ p, runNode env NodeId.stage_candidates w3 s3 = Except.ok p :=
    ⟨_, rfl⟩
  have hst4 : s4.run_id = rid := (runNode_state _ _ _ _ _ _ h4).1.trans hst3
  have hsel4 : s4.selected_template = some sel := (runNode_state _ _ _ _ _ _ h4).2.trans hsel3
  obtain ⟨⟨w5, s5⟩, h5⟩ : ∃ p, runNode env NodeId.stage_compliance w4 s4 = Except.ok p :=
    ⟨_, rfl⟩
  have hst5 : s5.run_id = rid := (runNode_state _ _ _ _ _ _ h5).1.trans hst4
  have hsel5 : s5.selected_template = some sel := (runNode_state _ _ _ _ _ _ h5).2.trans hsel4
  -- the conditional edge reads the in-memory selection
  have hn5 : nextNode NodeId.stage_compliance s5 = some NodeId.stage_execute := by
    simp only [nextNode, route_after_compliance, hsel5, pyTruthy, hbeq, Bool.not_false,
      if_true]
  -- step 6: EXECUTE
  obtain ⟨⟨w6, s6⟩, h6⟩ : ∃ p, runNode env NodeId.stage_execute w5 s5 = Except.ok p := by
    simp only [runNode, hsel5, pyTruthy, hbeq, Bool.not_false, if_true]
    exact ⟨_, rfl⟩
  -- run-row presence through the pipeline
  obtain ⟨r1, hgr1, hid1⟩ := runNode_runs_pres env NodeId.stage_load_brief _ _ _ _ rid
    (runUpdateFn rid none (some "S6_EXEC") (some (pyTake 16 env.selTemplateId)) none run)
    h1 hg1
  obtain ⟨r2, hgr2, hid2⟩ := runNode_runs_pres env NodeId.stage_target _ _ _ _ rid r1 h2 hgr1
  obtain ⟨r3, hgr3, hid3⟩ := runNode_runs_pres env NodeId.stage_rag _ _ _ _ rid r2 h3 hgr2
  obtain ⟨r4, hgr4, hid4⟩ := runNode_runs_pres env NodeId.stage_candidates _ _ _ _ rid r3 h4
    hgr3
  obtain ⟨r5, hgr5, hid5⟩ := runNode_runs_pres env NodeId.stage_compliance _ _ _ _ rid r4 h5
    hgr4
  have hid5run : r5.run_id = run.run_id := by
    rw [hid5, hid4, hid3, hid2, hid1, runUpdateFn_run_id]
  have hgr5b : getRun w5.runs s5.run_id = some r5 := by
    rw [hst5]
    exact hgr5
  have hstep := runNode_execute_step env w5 s5 w6 s6 rid r5 h6 hgr5b hst5
  -- store growth through the pipeline
  obtain ⟨u1, hsto1⟩ := runNode_store env NodeId.stage_load_brief _ _ _ _ h1
  obtain ⟨u2, hsto2⟩ := runNode_store env NodeId.stage_target _ _ _ _ h2
  obtain ⟨u3, hsto3⟩ := runNode_store env NodeId.stage_rag _ _ _ _ h3
  obtain ⟨u4, hsto4⟩ := runNode_store env NodeId.stage_candidates _ _ _ _ h4
  obtain ⟨u5, hsto5⟩ := runNode_store env NodeId.stage_compliance _ _ _ _ h5
  obtain ⟨u6, hsto6⟩ := runNode_store env NodeId.stage_execute _ _ _ _ h6
  refine ⟨([NodeId.stage_load_brief, NodeId.stage_target, NodeId.stage_rag,
    NodeId.stage_candidates, NodeId.stage_compliance, NodeId.stage_execute], w6, s6),
    ?_, rfl, ?_, ?_⟩
  · rw [hstart]
    rw [show (10 : Nat) = 9 + 1 from rfl, invokeAux_cons env 9 _ _ _ _ _ _ h1 rfl]
    rw [show (9 : Nat) = 8 + 1 from rfl, invokeAux_cons env 8 _ _ _ _ _ _ h2 rfl]
    rw [show (8 : Nat) = 7 + 1 from rfl, invokeAux_cons env 7 _ _ _ _ _ _ h3 rfl]
    rw [show (7 : Nat) = 6 + 1 from rfl, invokeAux_cons env 6 _ _ _ _ _ _ h4 rfl]
    rw [show (6 : Nat) = 5 + 1 from rfl, invokeAux_cons env 5 _ _ _ _ _ _ h5 hn5]
    rw [show (5 : Nat) = 4 + 1 from rfl, invokeAux_last env 4 _ _ _ _ _ h6 rfl]
  · refine ⟨⟨"", rid, ST_SELECTED_TEMPLATE, sel, w.clock⟩, ?_, rfl, rfl⟩
    rw [hsto6, hsto5, hsto4, hsto3, hsto2, hsto1]
    simp [create_handoff]
  · have hX : (runUpdateFn s5.run_id none (some "S6_EXEC")
        (some (pyTake 16 env.selTemplateId)) (some env.execFinalMessage) r5).step_id =
        "S6_EXEC" := by
      unfold runUpdateFn
      rw [hid5run, hst5, hmatch, if_pos rfl]
      show pyTake 16 "S6_EXEC" = "S6_EXEC"
      decide
    rw [hstep, Option.map_some', hX]

theorem C5_run_with_selection_witness :
    getRun wW.runs "r1" = some runW ∧ ("tmpl" : String) ≠ "" ∧
    ∃ out, run_with_selection envW wW "r1" "tmpl" = Except.ok out ∧
      out.1 = [NodeId.stage_load_brief, NodeId.stage_target, NodeId.stage_rag,
        NodeId.stage_candidates, NodeId.stage_compliance, NodeId.stage_execute] ∧
      (∃ h ∈ out.2.1.store, h.stage = ST_SELECTED_TEMPLATE ∧ h.payload_json = "tmpl") ∧
      (getRun out.2.1.runs "r1").map RunRow.step_id = some "S6_EXEC" :=
  ⟨by decide, by decide,
    C5_run_with_selection envW wW "r1" "tmpl" runW (by decide) (by decide)⟩

/-- Counterexample to the claim as stated: resuming with a selection does not
start at EXECUTE; the graph re-runs every stage from LOAD_BRIEF before
executing, as this concrete trace shows. -/
theorem C5_counterexample :
    Except.map Prod.fst (run_with_selection envW wW "r1" "tmpl") =
      Except.ok [NodeId.stage_load_brief, NodeId.stage_target, NodeId.stage_rag,
        NodeId.stage_candidates, NodeId.stage_compliance, NodeId.stage_execute] := by
  decide
